import Mathlib

/-!
Shallow embedding of the agent-testing-api execution pipeline
(src/app/services/execution.py, src/app/services/agent.py,
src/app/services/validation.py, src/app/services/scraper.py,
src/app/db/repositories/job_repository.py) together with proofs of the
spec claims about it.

Conventions:
* Python dicts with string keys are association lists (`Params`) whose
  lookup returns the first binding, and whose assignment replaces the
  first binding in place (Python dicts have unique keys, so this agrees
  with dict semantics).
* Python floats arising from division are modelled as rationals `ℚ`.
* Network effects (token fetch, session open, message send, scraping,
  model-based validation) are modelled by an environment `Env` of
  oracles giving the outcome of each call; fallible calls return
  `Except String`.
* `\w` in the URL regex is modelled over ASCII word characters, which
  covers every input appearing in the claims and in the repository's own
  tests.
-/

namespace AgentTesting

/-- A Python value as it appears in validation-parameter dicts. -/
inductive Val where
  | s (v : String)
  | b (v : Bool)
  | n (v : Int)
deriving DecidableEq, Repr

/-- A Python dict with string keys, as an insertion-ordered association list. -/
abbrev Params := List (String × Val)

/-- Python `d.get(k)`: the first binding of `k`, if any. -/
def dictGet : Params → String → Option Val
  | [], _ => none
  | (k', v) :: rest, k => if k' = k then some v else dictGet rest k

/-- Python `d.get(k, default)`. -/
def dictGetD (p : Params) (k : String) (d : Val) : Val :=
  (dictGet p k).getD d

/-- Python `d[k] = v`: replace the first binding of `k` in place, else append. -/
def dictSet : Params → String → Val → Params
  | [], k, v => [(k, v)]
  | (k', v') :: rest, k, v =>
    if k' = k then (k, v) :: rest else (k', v') :: dictSet rest k v

/-- Python `str(...)` on a `Val`, as used by f-string interpolation. -/
def pyStr : Val → String
  | .s v => v
  | .b true => "True"
  | .b false => "False"
  | .n v => toString v

/-- Python truthiness of a `Val`. -/
def pyTruthy : Val → Bool
  | .s v => v ≠ ""
  | .b v => v
  | .n v => v ≠ 0

/-- Whether `needle` occurs at the start of `hay` (list form of `str.startswith`). -/
def listStartsWith : List Char → List Char → Bool
  | [], _ => true
  | _ :: _, [] => false
  | c :: cs, d :: ds => c = d && listStartsWith cs ds

/-- Python `needle in hay` for strings, on the underlying character lists. -/
def listContainsSub (needle : List Char) : List Char → Bool
  | [] => listStartsWith needle []
  | d :: ds => listStartsWith needle (d :: ds) || listContainsSub needle ds

/-- Python `needle in hay` substring test. -/
def strContainsSub (needle hay : String) : Bool :=
  listContainsSub needle.toList hay.toList

/-- Python `str.lower()` (ASCII model, matching `Char.toLower`). -/
def pyLower (s : String) : String :=
  String.mk (s.toList.map Char.toLower)

/-! ### ScraperService.extract_urls (src/app/services/scraper.py lines 10-23)

The source applies `re.findall` with the pattern
`https?://(?:[-\w.]|(?:%[\da-fA-F]{2}))+` and returns the matches in
order.  The scanner below is that regex, specialised: the scheme part
is matched literally, and the body is the maximal greedy run of
elements that are either a single character of the class `[-\w.]` or a
`%`-escape `%[\da-fA-F]{2}`. -/

/-- A character of the class `\w` (ASCII fragment). -/
def isWordChar (c : Char) : Bool :=
  c.isAlphanum || c = '_'

/-- A character of the class `[-\w.]`. -/
def isUrlClassChar (c : Char) : Bool :=
  c = '-' || isWordChar c || c = '.'

/-- A character of the class `[\da-fA-F]`. -/
def isHexDigitChar (c : Char) : Bool :=
  c.isDigit || ('a' ≤ c && c ≤ 'f') || ('A' ≤ c && c ≤ 'F')

/-- Greedy match of `(?:[-\w.]|(?:%[\da-fA-F]{2}))+`'s body: returns the
consumed characters and the rest of the input. -/
def urlBody : List Char → List Char × List Char
  | [] => ([], [])
  | c :: cs =>
    if isUrlClassChar c then
      let (a, r) := urlBody cs
      (c :: a, r)
    else if c = '%' then
      match cs with
      | h1 :: h2 :: cs' =>
        if isHexDigitChar h1 && isHexDigitChar h2 then
          let (a, r) := urlBody cs'
          (c :: h1 :: h2 :: a, r)
        else ([], c :: cs)
      | _ => ([], c :: cs)
    else ([], c :: cs)

/-- Match of the literal scheme part `https?://` (the optional `s` needs no
backtracking: if the character after `http` is `s`, the schemeless branch
cannot match either). -/
def matchScheme : List Char → Option (List Char × List Char)
  | 'h' :: 't' :: 't' :: 'p' :: 's' :: ':' :: '/' :: '/' :: r =>
    some (['h', 't', 't', 'p', 's', ':', '/', '/'], r)
  | 'h' :: 't' :: 't' :: 'p' :: ':' :: '/' :: '/' :: r =>
    some (['h', 't', 't', 'p', ':', '/', '/'], r)
  | _ => none

/-- Match of the whole URL pattern at the head of the input; the `+` requires
at least one body element. -/
def matchUrlAt (cs : List Char) : Option (List Char × List Char) :=
  match matchScheme cs with
  | none => none
  | some (pre, rest) =>
    match urlBody rest with
    | ([], _) => none
    | (body, rest') => some (pre ++ body, rest')

/-- Left-to-right non-overlapping scan of `re.findall`; the fuel is an upper
bound on the number of characters left, consumed at least one per step. -/
def findAllUrlsAux : Nat → List Char → List (List Char)
  | 0, _ => []
  | _ + 1, [] => []
  | fuel + 1, c :: rest =>
    match matchUrlAt (c :: rest) with
    | some (m, rest') => m :: findAllUrlsAux fuel rest'
    | none => findAllUrlsAux fuel rest

/-- `ScraperService.extract_urls`. -/
def extract_urls (text : String) : List String :=
  (findAllUrlsAux text.toList.length text.toList).map fun l => String.mk l

/-! ### ValidationService (src/app/services/validation.py)

`_validate_contains` (lines 45-61).  A validation result dict has the
uniform shape `{type, passed, score, details}`.  The function returns
`none` exactly when the Python code would raise a `TypeError`, i.e. when
the `text` parameter is present but not a string. -/

/-- The uniform result dict returned by every validator. -/
structure ValOutcome where
  type : String
  passed : Bool
  score : ℚ
  details : String
deriving DecidableEq, Repr

/-- `ValidationService._validate_contains`. -/
def validate_contains (response : String) (parameters : Params) : Option ValOutcome :=
  match dictGetD parameters "text" (.s "") with
  | .s text =>
    let case_sensitive := pyTruthy (dictGetD parameters "case_sensitive" (.b true))
    let response := if case_sensitive then response else pyLower response
    let text := if case_sensitive then text else pyLower text
    let is_contained := strContainsSub text response
    some { type := "contains"
           passed := is_contained
           score := if is_contained then 1 else 0
           details := "Expected text " ++ (if is_contained then "found" else "not found")
             ++ " in response" }
  | _ => none

/-! ### ExecutionService._update_validation_params (src/app/services/execution.py lines 267-288) -/

/-- `ExecutionService._update_validation_params`. -/
def update_validation_params (validation_type : String) (parameters : Params)
    (scraped_content : Option String) : Params :=
  match scraped_content with
  | none => parameters
  | some sc =>
    if sc = "" then parameters
    else
      let params := parameters
      if validation_type = "contextual_relevancy" ∨ validation_type = "faithfulness" then
        match dictGet params "context" with
        | some v => dictSet params "context" (.s (pyStr v ++ "\n\n" ++ sc))
        | none => dictSet params "context" (.s sc)
      else params

/-! ### Database rows (src/app/db/models.py) and repository
(src/app/db/repositories/job_repository.py)

Timestamps carry no information the claims need; `completed_at` is
modelled as a flag recording whether it has been set.  SQLAlchemy
`query(...).filter(id == x).first()` followed by attribute mutation and
commit is modelled by `replaceFirst`. -/

/-- Database model `Job`. -/
structure JobRow where
  id : String
  batch_id : String
  status : String
  total_tests : Nat := 0
  completed_tests : Nat := 0
  failed_tests : Nat := 0
  current_test_id : Option String := none
  current_turn : Option Nat := none
  progress : ℚ := 0
  error : Option String := none
  completed_at_set : Bool := false
deriving DecidableEq, Repr

/-- Database model `TestResult`. -/
structure TestRow where
  id : Nat
  job_id : String
  test_id : String
  status : String
  error : Option String := none
  total_validations : Nat := 0
  passed_validations : Nat := 0
  failed_validations : Nat := 0
  pass_rate : ℚ := 0
  avg_response_time : ℚ := 0
  completed_at_set : Bool := false
deriving DecidableEq, Repr

/-- Database model `TurnResult`. -/
structure TurnRow where
  id : Nat
  test_result_id : Nat
  turn_id : String
  order : Nat
  user_input : String
  agent_response : String
  scraped_content : Option String := none
  response_time_ms : Nat := 0
  validations_total : Nat := 0
  validations_passed : Nat := 0
  validations_failed : Nat := 0
deriving DecidableEq, Repr

/-- The validation-result dict handed to `create_validation_result` as its
`details` JSON payload: the fields of it the engine reads. -/
structure VDict where
  passed : Bool
  score : Option ℚ
  details : String
deriving DecidableEq, Repr

/-- Database model `ValidationResult`. -/
structure ValRow where
  id : Nat
  turn_result_id : Nat
  validation_id : String
  validation_type : String
  is_passed : Bool
  score : Option ℚ := none
  details : VDict
deriving DecidableEq, Repr

/-- The relational store the repository operates on. -/
structure DB where
  jobs : List JobRow
  test_results : List TestRow
  turn_results : List TurnRow
  validation_results : List ValRow
deriving DecidableEq, Repr

def emptyDB : DB := ⟨[], [], [], []⟩

/-- Mutation of the first row matching a filter, as SQLAlchemy
`.filter(...).first()` followed by attribute assignment and commit. -/
def replaceFirst {α : Type} (p : α → Bool) (f : α → α) : List α → List α
  | [] => []
  | x :: rest => if p x then f x :: rest else x :: replaceFirst p f rest

/-- The row inserted by `create_job`: status `queued`, zero counts, zero
progress. -/
def newJobRow (job_id batch_id : String) (total_tests : Nat) : JobRow :=
  { id := job_id, batch_id := batch_id, status := "queued", total_tests := total_tests }

/-- `JobRepository.create_job` (lines 14-37). -/
def create_job (db : DB) (job_id batch_id : String) (total_tests : Nat) : DB :=
  { db with jobs := db.jobs ++ [newJobRow job_id batch_id total_tests] }

/-- `JobRepository.get_job` (lines 39-50). -/
def get_job (db : DB) (job_id : String) : Option JobRow :=
  db.jobs.find? fun j => j.id == job_id

/-- The optional keyword arguments of `update_job_status`. -/
structure JobUpdate where
  current_test_id : Option String := none
  current_turn : Option Nat := none
  completed_tests : Option Nat := none
  failed_tests : Option Nat := none
  error : Option String := none

/-- Field assignments of `JobRepository.update_job_status` (lines 79-107) on
one row: set `status`, overwrite each field whose keyword is not `None`,
recompute `progress` from the counts when `total_tests > 0`, and stamp
`completed_at` on a terminal status.  The source assigns the fields one
after the other; the assignments touch pairwise distinct fields and the
`progress` recomputation reads the counts after their assignment, so the
sequence is rendered as one parallel record (same result). -/
def applyJobUpdate (j : JobRow) (status : String) (u : JobUpdate) : JobRow :=
  let completed_tests := u.completed_tests.getD j.completed_tests
  let failed_tests := u.failed_tests.getD j.failed_tests
  { id := j.id
    batch_id := j.batch_id
    status := status
    total_tests := j.total_tests
    completed_tests := completed_tests
    failed_tests := failed_tests
    current_test_id := match u.current_test_id with
      | some v => some v
      | none => j.current_test_id
    current_turn := match u.current_turn with
      | some v => some v
      | none => j.current_turn
    progress :=
      if j.total_tests > 0 then
        (((completed_tests + failed_tests : ℕ) : ℚ) / (j.total_tests : ℚ)) * 100
      else j.progress
    error := match u.error with
      | some v => some v
      | none => j.error
    completed_at_set :=
      if status = "completed" ∨ status = "failed" then true else j.completed_at_set }

/-- `JobRepository.update_job_status` (lines 52-111); a missing job id writes
nothing. -/
def update_job_status (db : DB) (job_id : String) (status : String) (u : JobUpdate) : DB :=
  let jobs' := replaceFirst (fun j => j.id == job_id) (fun j => applyJobUpdate j status u) db.jobs
  { db with jobs := jobs' }

/-- `JobRepository.create_test_result` (lines 113-139); the returned `Nat` is
the autoincrement primary key of the inserted row. -/
def create_test_result (db : DB) (job_id test_id : String) : DB × Nat :=
  let rid := db.test_results.length + 1
  ({ db with test_results := db.test_results ++
      [{ id := rid, job_id := job_id, test_id := test_id, status := "running" }] },
   rid)

/-- The optional keyword arguments of `update_test_result`. -/
structure TestUpdate where
  total_validations : Option Nat := none
  passed_validations : Option Nat := none
  failed_validations : Option Nat := none
  avg_response_time : Option ℚ := none
  error : Option String := none

/-- Field assignments of `JobRepository.update_test_result` (lines 168-199)
on one row; sequential assignments rendered parallel exactly as in
`applyJobUpdate` (the `pass_rate` recomputation reads the validation counts
after their assignment). -/
def applyTestUpdate (t : TestRow) (status : String) (u : TestUpdate) : TestRow :=
  let total_validations := u.total_validations.getD t.total_validations
  let passed_validations := u.passed_validations.getD t.passed_validations
  { id := t.id
    job_id := t.job_id
    test_id := t.test_id
    status := status
    error := match u.error with
      | some v => some v
      | none => t.error
    total_validations := total_validations
    passed_validations := passed_validations
    failed_validations := u.failed_validations.getD t.failed_validations
    pass_rate :=
      if total_validations > 0 then
        ((passed_validations : ℚ) / (total_validations : ℚ)) * 100
      else t.pass_rate
    avg_response_time := u.avg_response_time.getD t.avg_response_time
    completed_at_set :=
      if status = "completed" ∨ status = "failed" then true else t.completed_at_set }

/-- `JobRepository.update_test_result` (lines 141-199). -/
def update_test_result (db : DB) (test_result_id : Nat) (status : String) (u : TestUpdate) : DB :=
  let trs' := replaceFirst (fun t => t.id == test_result_id) (fun t => applyTestUpdate t status u) db.test_results
  { db with test_results := trs' }

/-- `JobRepository.create_turn_result` (lines 201-240). -/
def create_turn_result (db : DB) (test_result_id : Nat) (turn_id : String) (ord : Nat)
    (user_input agent_response : String) (scraped_content : Option String)
    (response_time_ms : Nat) : DB × Nat :=
  let rid := db.turn_results.length + 1
  ({ db with turn_results := db.turn_results ++
      [{ id := rid, test_result_id := test_result_id, turn_id := turn_id, order := ord,
         user_input := user_input, agent_response := agent_response,
         scraped_content := scraped_content, response_time_ms := response_time_ms }] },
   rid)

/-- `JobRepository.create_validation_result` (lines 242-287): insert the row,
then recompute the parent turn's `validations_total` / `validations_passed` /
`validations_failed` by counting the child rows, in the same operation. -/
def create_validation_result (db : DB) (turn_result_id : Nat) (validation_id : String)
    (validation_type : String) (is_passed : Bool) (score : Option ℚ) (details : VDict) : DB :=
  let vid := db.validation_results.length + 1
  let db : DB := { db with validation_results := db.validation_results ++
      [{ id := vid, turn_result_id := turn_result_id, validation_id := validation_id,
         validation_type := validation_type, is_passed := is_passed, score := score,
         details := details }] }
  let total := (db.validation_results.filter fun v => v.turn_result_id == turn_result_id).length
  let passed := (db.validation_results.filter fun v => v.turn_result_id == turn_result_id && v.is_passed).length
  let recount : TurnRow → TurnRow := fun t =>
    { t with validations_total := total, validations_passed := passed,
             validations_failed := total - passed }
  let turns' := replaceFirst (fun t => t.id == turn_result_id) recount db.turn_results
  { db with turn_results := turns' }

/-! ### JobRepository.get_batch_results (lines 319-425) -/

/-- API model `ValidationResult` as assembled by `get_batch_results`. -/
structure ValidationResultModel where
  validation_id : String
  validation_type : String
  is_passed : Bool
  score : Option ℚ
  details : VDict
deriving DecidableEq, Repr

/-- API model `TurnResult` as assembled by `get_batch_results`. -/
structure TurnResultModel where
  turn_id : String
  order : Nat
  user_input : String
  agent_response : String
  scraped_content : Option String
  response_time_ms : Nat
  validations_total : Nat
  validations_passed : Nat
  validations_failed : Nat
  validation_results : List ValidationResultModel
deriving DecidableEq, Repr

/-- API model `TestResult` as assembled by `get_batch_results`. -/
structure TestResultModel where
  test_id : String
  status : String
  error : Option String
  total_validations : Nat
  passed_validations : Nat
  failed_validations : Nat
  pass_rate : ℚ
  avg_response_time : ℚ
  turn_results : List TurnResultModel
deriving DecidableEq, Repr

/-- API model `BatchResults`. -/
structure BatchResults where
  job_id : String
  batch_id : String
  status : String
  total_tests : Nat
  completed_tests : Nat
  failed_tests : Nat
  total_validations : Nat
  passed_validations : Nat
  failed_validations : Nat
  pass_rate : ℚ
  avg_response_time : ℚ
  test_results : List TestResultModel
  error : Option String
deriving DecidableEq, Repr

/-- Child turn rows of one test result, in insertion order. -/
def turnsOfTest (db : DB) (test_row_id : Nat) : List TurnRow :=
  db.turn_results.filter fun t => t.test_result_id == test_row_id

/-- Child turn rows of one test result ordered by `order`
(`.order_by(TurnResult.order)`). -/
def sortedTurnsOfTest (db : DB) (test_row_id : Nat) : List TurnRow :=
  List.insertionSort (fun a b => a.order ≤ b.order) (turnsOfTest db test_row_id)

/-- One `TurnResultModel` of `get_batch_results`. -/
def mkTurnModel (db : DB) (include_scraped_content : Bool) (t : TurnRow) : TurnResultModel :=
  let vrs := (db.validation_results.filter fun v => v.turn_result_id == t.id).map fun v =>
    ValidationResultModel.mk v.validation_id v.validation_type v.is_passed v.score v.details
  { turn_id := t.turn_id, order := t.order, user_input := t.user_input,
    agent_response := t.agent_response,
    scraped_content := if include_scraped_content then t.scraped_content else none,
    response_time_ms := t.response_time_ms,
    validations_total := t.validations_total, validations_passed := t.validations_passed,
    validations_failed := t.validations_failed, validation_results := vrs }

/-- One `TestResultModel` of `get_batch_results`. -/
def mkTestModel (db : DB) (include_scraped_content : Bool) (tr : TestRow) : TestResultModel :=
  { test_id := tr.test_id, status := tr.status, error := tr.error,
    total_validations := tr.total_validations, passed_validations := tr.passed_validations,
    failed_validations := tr.failed_validations, pass_rate := tr.pass_rate,
    avg_response_time := tr.avg_response_time,
    turn_results := (sortedTurnsOfTest db tr.id).map (mkTurnModel db include_scraped_content) }

/-- `JobRepository.get_batch_results` (lines 319-425).  The loop accumulators
`total_response_time`, `total_turn_count`, `total_validations` and
`passed_validations` of the source are written as sums over the same
traversal order. -/
def get_batch_results (db : DB) (job_id : String) (include_scraped_content : Bool) :
    Option BatchResults :=
  match db.jobs.find? fun j => j.id == job_id with
  | none => none
  | some job =>
    let test_results_db := db.test_results.filter fun t => t.job_id == job_id
    let test_results := test_results_db.map (mkTestModel db include_scraped_content)
    let total_response_time : Nat :=
      (test_results_db.map fun tr => ((sortedTurnsOfTest db tr.id).map (·.response_time_ms)).sum).sum
    let total_turn_count : Nat :=
      (test_results_db.map fun tr => (sortedTurnsOfTest db tr.id).length).sum
    let total_validations : Nat := (test_results_db.map (·.total_validations)).sum
    let passed_validations : Nat := (test_results_db.map (·.passed_validations)).sum
    let overall_pass_rate : ℚ :=
      if total_validations > 0 then ((passed_validations : ℚ) / (total_validations : ℚ)) * 100 else 0
    let overall_avg_response_time : ℚ :=
      if total_turn_count > 0 then (total_response_time : ℚ) / (total_turn_count : ℚ) else 0
    some { job_id := job.id, batch_id := job.batch_id, status := job.status,
           total_tests := job.total_tests, completed_tests := job.completed_tests,
           failed_tests := job.failed_tests,
           total_validations := total_validations, passed_validations := passed_validations,
           failed_validations := total_validations - passed_validations,
           pass_rate := overall_pass_rate, avg_response_time := overall_avg_response_time,
           test_results := test_results, error := job.error }

/-! ### AgentService.end_session (src/app/services/agent.py lines 121-152)

The session map is an association list keyed by session id; the outcome
of the remote DELETE call is an argument.  The return type carries no
error: every failure of the remote call is caught inside the function
(logged only), and the local record is removed regardless. -/

/-- The cached per-session data of `AgentService.sessions`. -/
structure SessionInfo where
  auth_token : String
  org_domain : String
  agent_id : String
deriving DecidableEq, Repr

/-- `AgentService.end_session`: an unknown session id is a silent no-op;
otherwise the local record is deleted whatever the remote outcome was. -/
def end_session (sessions : List (String × SessionInfo)) (session_id : String)
    (_remote : Except String Unit) : List (String × SessionInfo) :=
  match sessions.find? fun s => s.1 == session_id with
  | none => sessions
  | some _ => sessions.filter fun s => !(s.1 == session_id)

/-! ### Batch Execution Engine (src/app/services/execution.py lines 30-251)

The network calls of the engine (session start, message send, scraping,
validation) are oracles in an environment `Env`, keyed by the position
of the test in the batch, the position of the turn in the test, the
position of the validation in the turn, and the attempt number.  The
engine emits a trace of `Event`s recording the external calls it makes;
`Event.sessionEnd` is emitted exactly where the source awaits
`agent_service.end_session`. -/

/-- The configuration of one validation of a turn
(`ValidationRequest` in src/app/api/v1/endpoints/execution.py). -/
structure ValidationSpec where
  validation_id : String
  validation_type : String
  validation_parameters : Params
deriving Repr

/-- The configuration of one turn (`TurnRequest`). -/
structure TurnSpec where
  turn_id : String
  order : Nat
  user_input : String
  validations : List ValidationSpec
deriving Repr

/-- The configuration of one test (`TestRequest`). -/
structure TestSpec where
  test_id : String
  turns : List TurnSpec
deriving Repr

/-- External calls of one batch execution, in order. -/
inductive Event where
  | sessionStart (test : Nat) (ok : Bool)
  | sendAttempt (test turn attempt : Nat)
  | sleep (seconds : Nat)
  | scrapeCall (test turn : Nat)
  | validateAttempt (test turn validation attempt : Nat)
  | sessionEnd (test : Nat)
deriving DecidableEq, Repr

/-- Outcomes of the engine's network calls. -/
structure Env where
  startSession : Nat → Except String String
  send : Nat → Nat → Nat → Except String String
  responseTimeMs : Nat → Nat → Nat
  scrape : Nat → Nat → Except String String
  validate : Nat → Nat → Nat → Params → Nat → Except String VDict

/-- Whether an `Except` carries a value. -/
def exceptOk {ε α : Type} : Except ε α → Bool
  | .ok _ => true
  | .error _ => false

/-- The error carried by an `Except`, defaulting to `""`. -/
def exceptErr {α : Type} : Except String α → String
  | .ok _ => ""
  | .error e => e

/-- `max_retries` of `execute_batch` (line 84). -/
def maxRetries : Nat := 3

/-- The message-send retry loop (lines 83-100): `fuel` is the number of
attempts still allowed (`max_retries - retry_count`); a failure with no
attempt left re-raises, otherwise the loop sleeps 1 second and retries. -/
def sendLoopAux (send : Nat → Except String String) (ti tu : Nat) :
    Nat → Nat → List Event × Except String String
  | _, 0 => ([], .error "")
  | k, fuel + 1 =>
    match send k with
    | .ok r => ([.sendAttempt ti tu k], .ok r)
    | .error e =>
      if fuel = 0 then ([.sendAttempt ti tu k], .error e)
      else
        let (evs, res) := sendLoopAux send ti tu (k + 1) fuel
        (.sendAttempt ti tu k :: .sleep 1 :: evs, res)

/-- The message-send retry loop, started with `retry_count = 0`. -/
def sendLoop (send : Nat → Except String String) (ti tu : Nat) :
    List Event × Except String String :=
  sendLoopAux send ti tu 0 maxRetries

/-- The synthetic failing validation result built when validation retries are
exhausted (lines 158-163). -/
def syntheticValidationFailure (e : String) : VDict :=
  { passed := false, score := some 0,
    details := "Validation failed after 3 retries: " ++ e }

/-- The validation retry loop (lines 141-165): like the send loop, but
exhausting the attempts degrades to `syntheticValidationFailure` instead of
re-raising, so the loop always produces a result dict. -/
def valLoopAux (validate : Nat → Except String VDict) (ti tu vi : Nat) :
    Nat → Nat → List Event × VDict
  | _, 0 => ([], syntheticValidationFailure "")
  | k, fuel + 1 =>
    match validate k with
    | .ok v => ([.validateAttempt ti tu vi k], v)
    | .error e =>
      if fuel = 0 then ([.validateAttempt ti tu vi k], syntheticValidationFailure e)
      else
        let (evs, res) := valLoopAux validate ti tu vi (k + 1) fuel
        (.validateAttempt ti tu vi k :: .sleep 1 :: evs, res)

/-- The validation retry loop, started with `retry_count = 0`. -/
def valLoop (validate : Nat → Except String VDict) (ti tu vi : Nat) : List Event × VDict :=
  valLoopAux validate ti tu vi 0 maxRetries

/-- One iteration of the validation loop of a turn (lines 132-186): update the
parameters with scraped content, run the validation with retries, and persist
the result (`is_passed` is the dict's `passed`, `score` its `score`, and the
whole dict is stored as `details`). -/
def runValidation (env : Env) (ti tu vi : Nat) (v : ValidationSpec) (_agent_response : String)
    (scraped_content : Option String) (turn_row_id : Nat) (db : DB) : DB × List Event :=
  let params := update_validation_params v.validation_type v.validation_parameters scraped_content
  let (evs, vr) := valLoop (fun k => env.validate ti tu vi params k) ti tu vi
  let is_passed := vr.passed
  let db := create_validation_result db turn_row_id v.validation_id v.validation_type
    is_passed vr.score vr
  (db, evs)

/-- The validation loop of a turn, over the turn's validations in order. -/
def runValidations (env : Env) (ti tu : Nat) (agent_response : String)
    (scraped_content : Option String) (turn_row_id : Nat) :
    Nat → List ValidationSpec → DB → DB × List Event
  | _, [], db => (db, [])
  | vi, v :: rest, db =>
    let (db, evs) := runValidation env ti tu vi v agent_response scraped_content turn_row_id db
    let (db2, evs') := runValidations env ti tu agent_response scraped_content turn_row_id (vi + 1) rest db
    (db2, evs ++ evs')

/-- One turn of a test (lines 70-186): update the job's `current_turn`, send
the user input with retries (a send failure propagates as the `.error` of the
third component), time the call, extract URLs and scrape on a best-effort
basis, persist the turn, and run the validations.  On success the third
component carries the turn's `response_time_ms`. -/
def runTurn (env : Env) (job_id : String) (ti tu : Nat) (test_row_id : Nat) (turn : TurnSpec)
    (db : DB) : DB × List Event × Except String Nat :=
  let db := update_job_status db job_id "running" { current_turn := some turn.order }
  match sendLoop (fun k => env.send ti tu k) ti tu with
  | (evs, .error e) => (db, evs, .error e)
  | (evs, .ok agent_response) =>
    let response_time_ms := env.responseTimeMs ti tu
    let urls := extract_urls agent_response
    let scraped_content : Option String :=
      if urls.isEmpty then none
      else match env.scrape ti tu with
        | .ok s => some s
        | .error _ => none
    let scrapeEvs : List Event := if urls.isEmpty then [] else [.scrapeCall ti tu]
    let (db, turn_row_id) := create_turn_result db test_row_id turn.turn_id turn.order
      turn.user_input agent_response scraped_content response_time_ms
    let (db, vevs) := runValidations env ti tu agent_response scraped_content turn_row_id 0
      turn.validations db
    (db, evs ++ scrapeEvs ++ vevs, .ok response_time_ms)

/-- The turn loop of a test: turns run in order until one propagates a
failure; the third component collects the response times of the completed
turns, the fourth the error that aborted the loop, if any. -/
def runTurns (env : Env) (job_id : String) (ti : Nat) (test_row_id : Nat) :
    Nat → List TurnSpec → DB → DB × List Event × List Nat × Option String
  | _, [], db => (db, [], [], none)
  | tu, turn :: rest, db =>
    match runTurn env job_id ti tu test_row_id turn db with
    | (db, evs, .error e) => (db, evs, [], some e)
    | (db, evs, .ok rt) =>
      let (db, evs', rts, err) := runTurns env job_id ti test_row_id (tu + 1) rest db
      (db, evs ++ evs', rt :: rts, err)

/-- One test of the batch (lines 43-236): update the job's current test,
create the `TestResult`, and attempt the turn sequence inside the per-test
`try`.  On the success path the session is ended, the average response time
computed, the test marked `completed` and `completed_tests` incremented; any
failure (session start, or a turn propagating) marks the test `failed` and
increments `failed_tests` — and the source reaches `end_session` only on the
success path, so no `Event.sessionEnd` is emitted on the failure path. -/
def runTest (env : Env) (job_id : String) (ti : Nat) (test : TestSpec) (db : DB) :
    DB × List Event :=
  let db := update_job_status db job_id "running"
    { current_test_id := some test.test_id, current_turn := some 0 }
  let (db, test_row_id) := create_test_result db job_id test.test_id
  match env.startSession ti with
  | .error e =>
    let db := update_test_result db test_row_id "failed" { error := some e }
    let failed_tests := ((get_job db job_id).map (·.failed_tests)).getD 0
    let db := update_job_status db job_id "running" { failed_tests := some (failed_tests + 1) }
    (db, [.sessionStart ti false])
  | .ok _session_id =>
    let (db, tevs, response_times, err) := runTurns env job_id ti test_row_id 0 test.turns db
    match err with
    | some e =>
      let db := update_test_result db test_row_id "failed" { error := some e }
      let failed_tests := ((get_job db job_id).map (·.failed_tests)).getD 0
      let db := update_job_status db job_id "running" { failed_tests := some (failed_tests + 1) }
      (db, .sessionStart ti true :: tevs)
    | none =>
      let evs := .sessionStart ti true :: tevs ++ [Event.sessionEnd ti]
      let avg_response_time : ℚ :=
        if response_times.length > 0 then
          ((response_times.sum : ℕ) : ℚ) / ((response_times.length : ℕ) : ℚ)
        else 0
      let db := update_test_result db test_row_id "completed"
        { avg_response_time := some avg_response_time }
      let completed_tests := ((get_job db job_id).map (·.completed_tests)).getD 0
      let db := update_job_status db job_id "running" { completed_tests := some (completed_tests + 1) }
      (db, evs)

/-- The test loop of a batch. -/
def runTests (env : Env) (job_id : String) :
    Nat → List TestSpec → DB → DB × List Event
  | _, [], db => (db, [])
  | ti, test :: rest, db =>
    let (db, evs) := runTest env job_id ti test db
    let (db, evs') := runTests env job_id (ti + 1) rest db
    (db, evs ++ evs')

/-- `ExecutionService.execute_batch` (lines 30-251): create the job, mark it
running, run every test (each in its own `try` scope), and mark the job
`completed`.  In the model the repository operations cannot throw, so the
batch-level `except` branch (which would mark the job `failed`) is
unreachable, as it is in the source for the same error sources. -/
def execute_batch (env : Env) (job_id batch_id : String) (tests : List TestSpec) :
    DB × List Event :=
  let db := create_job emptyDB job_id batch_id tests.length
  let db := update_job_status db job_id "running" {}
  let (db, evs) := runTests env job_id 0 tests db
  let db := update_job_status db job_id "completed" {}
  (db, evs)

/-- Whether the send retries of turn `tu` of test `ti` are exhausted: all
`maxRetries` attempts fail. -/
def sendExhausted (env : Env) (ti tu : Nat) : Bool :=
  (List.range maxRetries).all fun k => !exceptOk (env.send ti tu k)

/-- Whether the per-test scope of test `ti` raises: its session start fails,
or some turn exhausts its send retries. -/
def testFails (env : Env) (ti : Nat) (test : TestSpec) : Bool :=
  !exceptOk (env.startSession ti) ||
    (List.range test.turns.length).any fun tu => sendExhausted env ti tu

/-- Number of tests of the batch whose per-test scope raises, the batch's
tests being numbered from `ti`. -/
def failCountFrom (env : Env) : Nat → List TestSpec → Nat
  | _, [] => 0
  | ti, test :: rest =>
    (if testFails env ti test then 1 else 0) + failCountFrom env (ti + 1) rest

/-- The statuses the tests' `TestResult` rows should end in, the batch's
tests being numbered from `ti`. -/
def expectedStatuses (env : Env) : Nat → List TestSpec → List String
  | _, [] => []
  | ti, test :: rest =>
    (if testFails env ti test then "failed" else "completed") :: expectedStatuses env (ti + 1) rest

/-- Recognizer of send-attempt events. -/
def isSendAttemptEv : Event → Bool
  | .sendAttempt _ _ _ => true
  | _ => false

/-! ### Claim C5 -/

/-- Job rows as the repository can produce them: inserted by `create_job`
and then mutated only by `update_job_status` — the only code paths that
write a `Job` row. -/
inductive JobRowReachable : JobRow → Prop where
  | created (job_id batch_id : String) (total_tests : Nat) :
      JobRowReachable (newJobRow job_id batch_id total_tests)
  | updated (j : JobRow) (status : String) (u : JobUpdate) (h : JobRowReachable j) :
      JobRowReachable (applyJobUpdate j status u)

/-- A small database for exercising `create_validation_result`: one turn row
(with stale zero counts) and one existing passing child validation. -/
def c7db : DB :=
  { jobs := [],
    test_results := [],
    turn_results := [{ id := 7, test_result_id := 1, turn_id := "turn-1", order := 1,
                       user_input := "hi", agent_response := "ok" }],
    validation_results := [{ id := 1, turn_result_id := 7, validation_id := "v1",
                             validation_type := "contains", is_passed := true,
                             score := some 1, details := ⟨true, some 1, "ok"⟩ }] }

/-- The turn row as it stands after creating a failing second child on
`c7db`: both children counted, one passing, one failing. -/
def c7row : TurnRow :=
  { id := 7, test_result_id := 1, turn_id := "turn-1", order := 1,
    user_input := "hi", agent_response := "ok",
    validations_total := 2, validations_passed := 1, validations_failed := 1 }

/-- The union of all turn rows across all of a job's tests, each turn
appearing once, in database order. -/
def allTurnsOfJob (db : DB) (job_id : String) : List TurnRow :=
  ((db.test_results.filter fun t => t.job_id == job_id).map fun t => turnsOfTest db t.id).flatten

/-- A small database for exercising `get_batch_results`: one job, two tests,
three turns with response times 10, 20 and 40 (the third turn on the second
test), so the turn-weighted mean differs from the mean of per-test means. -/
def c8db : DB :=
  { jobs := [{ id := "job-1", batch_id := "batch-1", status := "completed", total_tests := 2,
               completed_tests := 2 }],
    test_results :=
      [{ id := 1, job_id := "job-1", test_id := "t1", status := "completed" },
       { id := 2, job_id := "job-1", test_id := "t2", status := "completed" }],
    turn_results :=
      [{ id := 1, test_result_id := 1, turn_id := "a", order := 1, user_input := "u",
         agent_response := "r", response_time_ms := 10 },
       { id := 2, test_result_id := 1, turn_id := "b", order := 2, user_input := "u",
         agent_response := "r", response_time_ms := 20 },
       { id := 3, test_result_id := 2, turn_id := "c", order := 1, user_input := "u",
         agent_response := "r", response_time_ms := 40 }],
    validation_results := [] }

/-- The `jobs` table is exactly one row for `job_id`, in `running` state,
with the given totals and counts. -/
def JobShape (db : DB) (job_id : String) (total c f : Nat) : Prop :=
  ∃ j : JobRow, db.jobs = [j] ∧ j.id = job_id ∧ j.status = "running" ∧
    j.total_tests = total ∧ j.completed_tests = c ∧ j.failed_tests = f

/-- Recognizer of session-close events. -/
def isSessionEndEv : Event → Bool
  | .sessionEnd _ => true
  | _ => false

/-- Number of tests of the batch whose per-test scope does not raise, the
batch's tests being numbered from `ti`. -/
def okCountFrom (env : Env) : Nat → List TestSpec → Nat
  | _, [] => 0
  | ti, test :: rest =>
    (if testFails env ti test then 0 else 1) + okCountFrom env (ti + 1) rest

/-- The row inserted by `create_test_result`: status `running`, zero
counts. -/
def newTestRow (n : Nat) (job_id test_id : String) : TestRow :=
  { id := n, job_id := job_id, test_id := test_id, status := "running" }

/-- An environment in which every session opens, every validation passes, and
message sending fails (all attempts) exactly for the second test of the
batch. -/
def c1env : Env :=
  { startSession := fun _ => .ok "sess-1",
    send := fun ti _ _ => if ti = 1 then .error "connection reset" else .ok "hello",
    responseTimeMs := fun _ _ => 5,
    scrape := fun _ _ => .ok "",
    validate := fun _ _ _ _ _ => .ok { passed := true, score := some 1, details := "ok" } }

/-- A batch of three one-turn tests. -/
def c1tests : List TestSpec :=
  [{ test_id := "t1", turns := [{ turn_id := "turn-1", order := 1, user_input := "hi", validations := [] }] },
   { test_id := "t2", turns := [{ turn_id := "turn-1", order := 1, user_input := "hi", validations := [] }] },
   { test_id := "t3", turns := [{ turn_id := "turn-1", order := 1, user_input := "hi", validations := [] }] }]

/-- An environment in which the session opens but every message send fails,
so the only test's turn loop raises. -/
def c2env : Env :=
  { startSession := fun _ => .ok "sess-1",
    send := fun _ _ _ => .error "agent unreachable",
    responseTimeMs := fun _ _ => 0,
    scrape := fun _ _ => .ok "",
    validate := fun _ _ _ _ _ => .ok { passed := true, score := some 1, details := "ok" } }

/-- A batch of one one-turn test. -/
def c2tests : List TestSpec :=
  [{ test_id := "t1", turns := [{ turn_id := "turn-1", order := 1, user_input := "hi", validations := [] }] }]

/-- A validation oracle that times out on every attempt. -/
def c3validate : Nat → Except String VDict := fun _ => .error "model timeout"

/-- An environment in which sessions and sends succeed but every validation
call times out on every attempt. -/
def c3env : Env :=
  { startSession := fun _ => .ok "sess-1",
    send := fun _ _ _ => .ok "hello",
    responseTimeMs := fun _ _ => 5,
    scrape := fun _ _ => .ok "",
    validate := fun _ _ _ _ _ => .error "model timeout" }

/-- A one-turn test with one validation. -/
def c3test : TestSpec :=
  { test_id := "t1",
    turns := [{ turn_id := "turn-1", order := 1, user_input := "hi",
                validations := [{ validation_id := "v1",
                                  validation_type := "answer_relevancy",
                                  validation_parameters := [] }] }] }

/-- A database holding one freshly created running job for the C3 witness. -/
def c3db : DB := update_job_status (create_job emptyDB "job-1" "batch-1" 1) "job-1" "running" {}

/-! ## Theorems: helper lemmas and the claims -/

/-! ## Helper lemmas -/
theorem listContainsSub_nil (l : List Char) : listContainsSub [] l = true := by
  induction l with
  | nil => rfl
  | cons d ds ih => simp [listContainsSub, listStartsWith, ih]

theorem strContainsSub_empty (hay : String) : strContainsSub "" hay = true := by
  unfold strContainsSub
  exact listContainsSub_nil _

theorem pyLower_empty : pyLower "" = "" := rfl

theorem dictGet_dictSet_self (p : Params) (k : String) (v : Val) :
    dictGet (dictSet p k v) k = some v := by
  induction p with
  | nil => simp [dictSet, dictGet]
  | cons kv rest ih =>
    obtain ⟨k', v'⟩ := kv
    by_cases h : k' = k
    · simp [dictSet, dictGet, h]
    · simp [dictSet, dictGet, h, ih]

theorem dictGet_dictSet_ne (p : Params) (k k' : String) (v : Val) (h : k' ≠ k) :
    dictGet (dictSet p k v) k' = dictGet p k' := by
  have hk : k ≠ k' := Ne.symm h
  induction p with
  | nil => simp [dictSet, dictGet, hk]
  | cons kv rest ih =>
    obtain ⟨k₀, v₀⟩ := kv
    by_cases h0 : k₀ = k
    · subst h0
      simp [dictSet, dictGet, hk]
    · simp [dictSet, dictGet, h0, ih]

/-! ### Claim C6 -/

/-- Claim C6: the claim states that `extract_urls` applied to
`"Visit https://a.com and https://b.org/x?y=1 today"` returns
`["https://a.com", "https://b.org/x?y=1"]`.  It does not: the URL regex's
character class `[-\w.]` contains neither `/` nor `?` nor `=`, so every
match is truncated at the first `/` and the code returns
`["https://a.com", "https://b.org"]` (first conjunct).  The code also fails
the repository's own unit test `test_extract_urls`
(src/tests/services/test_scraper.py lines 27-31), which feeds it
`"Visit https://example.com/path/to/page?param=value#section for details."`
and asserts that `"https://example.com/path/to/page"` is a substring of the
single returned URL: the returned URL is `"https://example.com"` (second
conjunct) and the asserted substring test is false on it (third conjunct),
so the claim reflects the documented intent and the code is the slip. -/
theorem extract_urls_truncates_at_slash :
    extract_urls "Visit https://a.com and https://b.org/x?y=1 today"
      = ["https://a.com", "https://b.org"] ∧
    extract_urls "Visit https://example.com/path/to/page?param=value#section for details."
      = ["https://example.com"] ∧
    strContainsSub "https://example.com/path/to/page" "https://example.com" = false := by
  refine ⟨?_, ?_, ?_⟩ <;> decide

/-! ### Claim C10 -/

/-- Claim C10: a `contains` validation whose parameters lack the `text` key,
or supply it as the empty string, passes with score 1.0 on every response:
the expected text defaults to `""`, which is a substring of every string. -/
theorem contains_empty_text_always_passes (response : String) (parameters : Params)
    (h : dictGet parameters "text" = none ∨ dictGet parameters "text" = some (Val.s "")) :
    validate_contains response parameters =
      some { type := "contains", passed := true, score := 1,
             details := "Expected text found in response" } := by
  unfold validate_contains dictGetD
  rcases h with h | h <;>
    rw [h] <;>
    cases hcs : pyTruthy ((dictGet parameters "case_sensitive").getD (Val.b true)) <;>
    simp [hcs, pyLower_empty, strContainsSub_empty]

/-- Witness for C10 at a concrete response and parameter dict. -/
theorem contains_empty_text_always_passes_witness :
    validate_contains "Hello World" [("case_sensitive", Val.b false)] =
      some { type := "contains", passed := true, score := 1,
             details := "Expected text found in response" } :=
  contains_empty_text_always_passes "Hello World" [("case_sensitive", Val.b false)]
    (Or.inl (by decide))

/-! ### Claim C9 -/

/-- Claim C9: `_update_validation_params` never mutates the caller's dict:
when scraped content is absent or empty, or the validation type is not one of
`contextual_relevancy` / `faithfulness`, the result equals the input mapping
(first conjunct; in the source the untouched cases return either the input
object itself or an unmodified copy of it — the same mapping); otherwise only
the `context` key differs: scraped content is appended to an existing
`context` after a blank line, or becomes the `context` value when absent,
and every other key keeps its value (second conjunct). -/
theorem update_validation_params_frame (validation_type : String) (parameters : Params)
    (scraped_content : Option String) :
    ((scraped_content = none ∨ scraped_content = some "" ∨
        (validation_type ≠ "contextual_relevancy" ∧ validation_type ≠ "faithfulness")) →
      update_validation_params validation_type parameters scraped_content = parameters) ∧
    (∀ sc, scraped_content = some sc → sc ≠ "" →
      (validation_type = "contextual_relevancy" ∨ validation_type = "faithfulness") →
      (∀ k, k ≠ "context" →
        dictGet (update_validation_params validation_type parameters scraped_content) k
          = dictGet parameters k) ∧
      dictGet (update_validation_params validation_type parameters scraped_content) "context"
        = some (Val.s (match dictGet parameters "context" with
            | some v => pyStr v ++ "\n\n" ++ sc
            | none => sc))) := by
  constructor
  · intro h
    rcases h with h | h | ⟨h1, h2⟩
    · rw [h]; rfl
    · rw [h]; rfl
    · unfold update_validation_params
      cases scraped_content with
      | none => rfl
      | some sc =>
        by_cases hsc : sc = "" <;> simp [hsc, h1, h2]
  · intro sc hsc hne hty
    subst hsc
    have hty' : validation_type = "contextual_relevancy" ∨ validation_type = "faithfulness" := hty
    constructor
    · intro k hk
      unfold update_validation_params
      simp only [hne, if_neg hne, hty']
      cases hctx : dictGet parameters "context" <;>
        simp [hctx, hty', hne, dictGet_dictSet_ne _ _ _ _ hk]
    · unfold update_validation_params
      simp only [hne, hty']
      cases hctx : dictGet parameters "context" <;>
        simp [hctx, hty', hne, dictGet_dictSet_self]

/-- Witness for C9: both branches at concrete inputs. -/
theorem update_validation_params_frame_witness :
    update_validation_params "contains" [("text", Val.s "x")] (some "page text")
      = [("text", Val.s "x")] ∧
    dictGet (update_validation_params "faithfulness"
        [("context", Val.s "old"), ("threshold", Val.n 1)] (some "page text")) "threshold"
      = some (Val.n 1) ∧
    dictGet (update_validation_params "faithfulness"
        [("context", Val.s "old"), ("threshold", Val.n 1)] (some "page text")) "context"
      = some (Val.s "old\n\npage text") := by
  refine ⟨?_, ?_, ?_⟩
  · exact (update_validation_params_frame "contains" [("text", Val.s "x")] (some "page text")).1
      (Or.inr (Or.inr (by decide)))
  · exact ((update_validation_params_frame "faithfulness"
        [("context", Val.s "old"), ("threshold", Val.n 1)] (some "page text")).2
      "page text" rfl (by decide) (Or.inr rfl)).1 "threshold" (by decide)
  · exact ((update_validation_params_frame "faithfulness"
        [("context", Val.s "old"), ("threshold", Val.n 1)] (some "page text")).2
      "page text" rfl (by decide) (Or.inr rfl)).2

/-! ### Retry-loop lemmas and claim C4 -/

/-- First attempt succeeds: one attempt, no sleep. -/
theorem sendLoop_ok0 (send : Nat → Except String String) (ti tu : Nat) (r : String)
    (h0 : send 0 = .ok r) :
    sendLoop send ti tu = ([.sendAttempt ti tu 0], .ok r) := by
  simp [sendLoop, maxRetries, sendLoopAux, h0]

/-- Second attempt succeeds: two attempts, one 1-second sleep between them. -/
theorem sendLoop_ok1 (send : Nat → Except String String) (ti tu : Nat) (e0 r : String)
    (h0 : send 0 = .error e0) (h1 : send 1 = .ok r) :
    sendLoop send ti tu =
      ([.sendAttempt ti tu 0, .sleep 1, .sendAttempt ti tu 1], .ok r) := by
  simp [sendLoop, maxRetries, sendLoopAux, h0, h1]

/-- Third attempt succeeds: three attempts, two sleeps. -/
theorem sendLoop_ok2 (send : Nat → Except String String) (ti tu : Nat) (e0 e1 r : String)
    (h0 : send 0 = .error e0) (h1 : send 1 = .error e1) (h2 : send 2 = .ok r) :
    sendLoop send ti tu =
      ([.sendAttempt ti tu 0, .sleep 1, .sendAttempt ti tu 1, .sleep 1,
        .sendAttempt ti tu 2], .ok r) := by
  simp [sendLoop, maxRetries, sendLoopAux, h0, h1, h2]

/-- All three attempts fail: the third failure is re-raised with no further
sleep or attempt. -/
theorem sendLoop_exhausted (send : Nat → Except String String) (ti tu : Nat) (e0 e1 e2 : String)
    (h0 : send 0 = .error e0) (h1 : send 1 = .error e1) (h2 : send 2 = .error e2) :
    sendLoop send ti tu =
      ([.sendAttempt ti tu 0, .sleep 1, .sendAttempt ti tu 1, .sleep 1,
        .sendAttempt ti tu 2], .error e2) := by
  simp [sendLoop, maxRetries, sendLoopAux, h0, h1, h2]

/-- `sendExhausted` spelled out over the three attempts. -/
theorem sendExhausted_iff (env : Env) (ti tu : Nat) :
    sendExhausted env ti tu =
      (!exceptOk (env.send ti tu 0) && !exceptOk (env.send ti tu 1) &&
       !exceptOk (env.send ti tu 2)) := by
  have hr : List.range maxRetries = [0, 1, 2] := rfl
  simp [sendExhausted, hr, Bool.and_assoc]

/-- The send loop produces a value exactly when its retries are not
exhausted. -/
theorem sendLoop_ok_iff (env : Env) (ti tu : Nat) :
    exceptOk (sendLoop (fun k => env.send ti tu k) ti tu).2 = !sendExhausted env ti tu := by
  rw [sendExhausted_iff]
  rcases h0 : env.send ti tu 0 with e0 | r0
  · rcases h1 : env.send ti tu 1 with e1 | r1
    · rcases h2 : env.send ti tu 2 with e2 | r2
      · rw [sendLoop_exhausted _ ti tu e0 e1 e2 h0 h1 h2]; simp [exceptOk, h0, h1, h2]
      · rw [sendLoop_ok2 _ ti tu e0 e1 r2 h0 h1 h2]; simp [exceptOk, h0, h1, h2]
    · rw [sendLoop_ok1 _ ti tu e0 r1 h0 h1]; simp [exceptOk, h0, h1]
  · rw [sendLoop_ok0 _ ti tu r0 h0]; simp [exceptOk, h0]

/-- All three validation attempts fail: the loop degrades to the synthetic
failing result carrying the last error, after two sleeps. -/
theorem valLoop_exhausted (validate : Nat → Except String VDict) (ti tu vi : Nat)
    (e0 e1 e2 : String)
    (h0 : validate 0 = .error e0) (h1 : validate 1 = .error e1) (h2 : validate 2 = .error e2) :
    valLoop validate ti tu vi =
      ([.validateAttempt ti tu vi 0, .sleep 1, .validateAttempt ti tu vi 1, .sleep 1,
        .validateAttempt ti tu vi 2], syntheticValidationFailure e2) := by
  simp [valLoop, maxRetries, valLoopAux, h0, h1, h2]

/-- Claim C4: sending a turn's user input is attempted at most 3 times total,
with a fixed 1-second sleep between consecutive attempts; a success stops the
loop immediately (first three conjuncts, one per succeeding attempt); if the
third attempt also raises, the loop re-raises that failure (fourth conjunct);
the number of attempt events never exceeds `max_retries = 3` (fifth
conjunct); and an exhausted send propagates out of the turn as the turn's
error, to be caught by the enclosing per-test scope (sixth conjunct). -/
theorem send_retry_policy (send : Nat → Except String String) (ti tu : Nat) :
    (∀ r, send 0 = .ok r →
      sendLoop send ti tu = ([.sendAttempt ti tu 0], .ok r)) ∧
    (∀ e0 r, send 0 = .error e0 → send 1 = .ok r →
      sendLoop send ti tu =
        ([.sendAttempt ti tu 0, .sleep 1, .sendAttempt ti tu 1], .ok r)) ∧
    (∀ e0 e1 r, send 0 = .error e0 → send 1 = .error e1 → send 2 = .ok r →
      sendLoop send ti tu =
        ([.sendAttempt ti tu 0, .sleep 1, .sendAttempt ti tu 1, .sleep 1,
          .sendAttempt ti tu 2], .ok r)) ∧
    (∀ e0 e1 e2, send 0 = .error e0 → send 1 = .error e1 → send 2 = .error e2 →
      sendLoop send ti tu =
        ([.sendAttempt ti tu 0, .sleep 1, .sendAttempt ti tu 1, .sleep 1,
          .sendAttempt ti tu 2], .error e2)) ∧
    ((sendLoop send ti tu).1.filter isSendAttemptEv).length ≤ maxRetries ∧
    (∀ (env : Env) (job_id : String) (ti' tu' test_row_id : Nat) (turn : TurnSpec) (db : DB),
      sendExhausted env ti' tu' = true →
      exceptOk (runTurn env job_id ti' tu' test_row_id turn db).2.2 = false) := by
  refine ⟨fun r h0 => sendLoop_ok0 send ti tu r h0,
    fun e0 r h0 h1 => sendLoop_ok1 send ti tu e0 r h0 h1,
    fun e0 e1 r h0 h1 h2 => sendLoop_ok2 send ti tu e0 e1 r h0 h1 h2,
    fun e0 e1 e2 h0 h1 h2 => sendLoop_exhausted send ti tu e0 e1 e2 h0 h1 h2,
    ?_, ?_⟩
  · rcases h0 : send 0 with e0 | r0
    · rcases h1 : send 1 with e1 | r1
      · rcases h2 : send 2 with e2 | r2
        · rw [sendLoop_exhausted send ti tu e0 e1 e2 h0 h1 h2]
          simp [isSendAttemptEv, maxRetries]
        · rw [sendLoop_ok2 send ti tu e0 e1 r2 h0 h1 h2]
          simp [isSendAttemptEv, maxRetries]
      · rw [sendLoop_ok1 send ti tu e0 r1 h0 h1]
        simp [isSendAttemptEv, maxRetries]
    · rw [sendLoop_ok0 send ti tu r0 h0]
      simp [isSendAttemptEv, maxRetries]
  · intro env job_id ti' tu' test_row_id turn db hex
    have hok := sendLoop_ok_iff env ti' tu'
    rw [hex] at hok
    simp only [Bool.not_true] at hok
    unfold runTurn
    rcases hsl : sendLoop (fun k => env.send ti' tu' k) ti' tu' with ⟨evs, res⟩
    rw [hsl] at hok
    cases res with
    | error e => simp [exceptOk]
    | ok v => simp [exceptOk] at hok

/-- Witness for C4: a send that fails once and succeeds on the second
attempt, and one that exhausts all three attempts. -/
theorem send_retry_policy_witness :
    sendLoop (fun k => if k = 0 then .error "net down" else .ok "pong") 0 0 =
      ([.sendAttempt 0 0 0, .sleep 1, .sendAttempt 0 0 1], .ok "pong") ∧
    sendLoop (fun _ => (.error "net down" : Except String String)) 0 0 =
      ([.sendAttempt 0 0 0, .sleep 1, .sendAttempt 0 0 1, .sleep 1,
        .sendAttempt 0 0 2], .error "net down") := by
  constructor
  · exact (send_retry_policy (fun k => if k = 0 then .error "net down" else .ok "pong") 0 0).2.1
      "net down" "pong" rfl rfl
  · exact (send_retry_policy (fun _ => (.error "net down" : Except String String)) 0 0).2.2.2.1
      "net down" "net down" "net down" rfl rfl rfl

/-- Every reachable job row has `progress` consistent with its counts:
the claimed formula when `total_tests > 0`, and `0` when `total_tests = 0`
(the recomputation is skipped then, and the creation value `0` persists). -/
theorem jobRowReachable_progress (j : JobRow) (h : JobRowReachable j) :
    (j.total_tests > 0 →
      j.progress = (((j.completed_tests + j.failed_tests : ℕ) : ℚ) / (j.total_tests : ℚ)) * 100) ∧
    (j.total_tests = 0 → j.progress = 0) := by
  induction h with
  | created job_id batch_id total_tests =>
    constructor
    · intro _
      simp [newJobRow]
    · intro _
      simp [newJobRow]
  | updated j status u hj ih =>
    constructor
    · intro hpos
      have hpos' : j.total_tests > 0 := hpos
      simp [applyJobUpdate, hpos']
    · intro h0
      have h0' : j.total_tests = 0 := h0
      simp [applyJobUpdate, h0']
      exact ih.2 h0'

/-- Every element of `replaceFirst p f l` is an element of `l` or the image
under `f` of one. -/
theorem replaceFirst_mem {α : Type} (p : α → Bool) (f : α → α) (l : List α) (x : α)
    (hx : x ∈ replaceFirst p f l) : x ∈ l ∨ ∃ y ∈ l, x = f y := by
  induction l with
  | nil => simp [replaceFirst] at hx
  | cons a rest ih =>
    by_cases h : p a
    · simp [replaceFirst, h] at hx
      rcases hx with h1 | h1
      · exact Or.inr ⟨a, by simp, h1⟩
      · exact Or.inl (by simp [h1])
    · simp [replaceFirst, h] at hx
      rcases hx with h1 | h1
      · exact Or.inl (by simp [h1])
      · rcases ih h1 with h2 | ⟨y, hy, h3⟩
        · exact Or.inl (by simp [h2])
        · exact Or.inr ⟨y, by simp [hy], h3⟩

/-- Claim C5: after every `update_job_status` call, every job row (the
updated one included) satisfies `progress = (completed_tests + failed_tests)
/ total_tests * 100` when `total_tests > 0` and `progress = 0` when
`total_tests = 0`; `progress` is never set independently of the counts
(it is an invariant of all rows the repository can produce). -/
theorem update_job_status_progress (db : DB) (job_id status : String) (u : JobUpdate)
    (hreach : ∀ j ∈ db.jobs, JobRowReachable j) :
    ∀ j' ∈ (update_job_status db job_id status u).jobs,
      (j'.total_tests > 0 →
        j'.progress = (((j'.completed_tests + j'.failed_tests : ℕ) : ℚ) / (j'.total_tests : ℚ)) * 100) ∧
      (j'.total_tests = 0 → j'.progress = 0) := by
  intro j' hj'
  have hj'' : j' ∈ replaceFirst (fun j => j.id == job_id) (fun j => applyJobUpdate j status u) db.jobs := by
    simpa [update_job_status] using hj'
  rcases replaceFirst_mem _ _ _ _ hj'' with hmem | ⟨y, hy, hxy⟩
  · exact jobRowReachable_progress j' (hreach j' hmem)
  · subst hxy
    exact jobRowReachable_progress _ (.updated y status u (hreach y hy))

/-- Witness for C5: a job created with 2 tests, updated with 1 completed
test, shows progress 50. -/
theorem update_job_status_progress_witness :
    ((get_job (update_job_status (create_job emptyDB "job-1" "batch-1" 2) "job-1" "running"
        { completed_tests := some 1 }) "job-1").map fun j => j.progress) = some 50 := by
  have h := update_job_status_progress (create_job emptyDB "job-1" "batch-1" 2) "job-1" "running"
      { completed_tests := some 1 }
      (by
        intro j hj
        simp [create_job, emptyDB] at hj
        rw [hj]
        exact .created "job-1" "batch-1" 2)
  have hrow := h (applyJobUpdate (newJobRow "job-1" "batch-1" 2) "running" { completed_tests := some 1 })
      (by simp [update_job_status, create_job, emptyDB, replaceFirst, newJobRow])
  have hget : get_job (update_job_status (create_job emptyDB "job-1" "batch-1" 2) "job-1" "running"
      { completed_tests := some 1 }) "job-1"
      = some (applyJobUpdate (newJobRow "job-1" "batch-1" 2) "running" { completed_tests := some 1 }) := by
    rfl
  rw [hget]
  have h50 := hrow.1 (by decide)
  have hmap : Option.map (fun j => j.progress)
      (some (applyJobUpdate (newJobRow "job-1" "batch-1" 2) "running" { completed_tests := some 1 }))
      = some ((applyJobUpdate (newJobRow "job-1" "batch-1" 2) "running"
          { completed_tests := some 1 }).progress) := rfl
  rw [hmap, h50]
  simp [applyJobUpdate, newJobRow]
  norm_num

/-! ### Claim C7 -/

/-- In a list in which at most one element satisfies `p`, any element of
`replaceFirst p f l` satisfying `p` is the image under `f` of the matching
element of `l`: no stale matching row survives the replacement. -/
theorem replaceFirst_filter_le_one {α : Type} (p : α → Bool) (f : α → α) :
    ∀ l : List α, (l.filter p).length ≤ 1 →
      ∀ x ∈ replaceFirst p f l, p x = true → ∃ y ∈ l, p y = true ∧ x = f y := by
  intro l
  induction l with
  | nil => simp [replaceFirst]
  | cons a rest ih =>
    intro huniq x hx hpx
    by_cases h : p a
    · simp [replaceFirst, h] at hx
      rcases hx with h1 | h1
      · exact ⟨a, by simp, h, h1⟩
      · exfalso
        rw [List.filter_cons_of_pos h] at huniq
        simp at huniq
        simp [huniq x h1] at hpx
    · simp [replaceFirst, h] at hx
      rcases hx with h1 | h1
      · rw [h1] at hpx
        exact absurd hpx (by simp [h])
      · have huniq' : (rest.filter p).length ≤ 1 := by
          rw [List.filter_cons_of_neg h] at huniq
          exact huniq
        rcases ih huniq' x h1 hpx with ⟨y, hy, hpy, hxy⟩
        exact ⟨y, by simp [hy], hpy, hxy⟩

/-- Claim C7: `create_validation_result` recomputes the parent turn's derived
counts from its child rows in the same operation: afterwards, the parent turn
row has `validations_total` equal to the number of its child validation rows
(the new row included), `validations_passed` equal to the number of passing
children, and `validations_failed` equal to their difference — the counts are
never left stale.  The hypothesis says the parent `turn_result_id` is not
duplicated among the turn rows, which holds of every database the repository
builds (`id` is the primary key). -/
theorem create_validation_result_recomputes (db : DB) (tid : Nat) (vid vtype : String)
    (is_passed : Bool) (score : Option ℚ) (details : VDict)
    (huniq : (db.turn_results.filter fun t => t.id == tid).length ≤ 1) :
    ∀ t ∈ (create_validation_result db tid vid vtype is_passed score details).turn_results,
      t.id = tid →
      t.validations_total =
        ((create_validation_result db tid vid vtype is_passed score details).validation_results.filter
          fun v => v.turn_result_id == tid).length ∧
      t.validations_passed =
        ((create_validation_result db tid vid vtype is_passed score details).validation_results.filter
          fun v => v.turn_result_id == tid && v.is_passed).length ∧
      t.validations_failed = t.validations_total - t.validations_passed := by
  intro t ht htid
  simp only [create_validation_result] at ht ⊢
  obtain ⟨y, hy, hpy, hteq⟩ := replaceFirst_filter_le_one _ _ db.turn_results huniq t ht
    (by simp [htid])
  subst hteq
  exact ⟨rfl, rfl, rfl⟩

/-- Witness for C7: on `c7db`, creating a failing second child recomputes the
parent's counts to `total = 2`, `passed = 1`, `failed = 1`. -/
theorem create_validation_result_recomputes_witness :
    c7row.validations_total = 2 ∧ c7row.validations_passed = 1 ∧
      c7row.validations_failed = c7row.validations_total - c7row.validations_passed ∧
    (create_validation_result c7db 7 "v2" "regex" false (some 0)
        ⟨false, some 0, "no"⟩).turn_results = [c7row] := by
  have h := create_validation_result_recomputes c7db 7 "v2" "regex" false (some 0)
    ⟨false, some 0, "no"⟩ (by decide) c7row (by decide) rfl
  obtain ⟨h1, h2, h3⟩ := h
  refine ⟨?_, ?_, h3, ?_⟩
  · rw [h1]; rfl
  · rw [h2]; rfl
  · rfl

/-! ### Claim C8 -/

/-- Claim C8: the batch-level `avg_response_time` of `get_batch_results` is
the arithmetic mean over the union of all turn `response_time_ms` values
across all of the job's tests — every turn weighted equally, not a mean of
per-test means — and `0` when the job has no turns. -/
theorem batch_avg_response_time_is_turn_mean (db : DB) (job_id : String) (inc : Bool)
    (r : BatchResults) (h : get_batch_results db job_id inc = some r) :
    r.avg_response_time =
      if (allTurnsOfJob db job_id).length > 0 then
        (((((allTurnsOfJob db job_id).map fun t => t.response_time_ms).sum : ℕ)) : ℚ) /
          ((allTurnsOfJob db job_id).length : ℚ)
      else 0 := by
  unfold get_batch_results at h
  rcases hj : db.jobs.find? (fun j => j.id == job_id) with _ | job
  · rw [hj] at h
    simp at h
  · rw [hj] at h
    have hr := (Option.some_inj.mp h).symm
    subst hr
    have hlen : ∀ tid, (sortedTurnsOfTest db tid).length = (turnsOfTest db tid).length :=
      fun tid => (List.perm_insertionSort _ _).length_eq
    have hsum : ∀ tid, ((sortedTurnsOfTest db tid).map fun t => t.response_time_ms).sum
        = ((turnsOfTest db tid).map fun t => t.response_time_ms).sum :=
      fun tid => List.Perm.sum_eq ((List.perm_insertionSort _ _).map _)
    have hcount : ((db.test_results.filter fun t => t.job_id == job_id).map
          fun tr => (sortedTurnsOfTest db tr.id).length).sum
        = (allTurnsOfJob db job_id).length := by
      unfold allTurnsOfJob
      rw [List.length_flatten, List.map_map]
      exact congrArg List.sum (List.map_congr_left fun a _ => hlen a.id)
    have hrt : ((db.test_results.filter fun t => t.job_id == job_id).map
          fun tr => ((sortedTurnsOfTest db tr.id).map fun t => t.response_time_ms).sum).sum
        = ((allTurnsOfJob db job_id).map fun t => t.response_time_ms).sum := by
      unfold allTurnsOfJob
      rw [List.map_flatten, List.sum_flatten, List.map_map, List.map_map]
      refine congrArg List.sum (List.map_congr_left fun a _ => ?_)
      exact hsum a.id
    simp only [← hcount, ← hrt]

/-- Witness for C8: on `c8db` the batch average is `(10+20+40)/3`, not the
mean of per-test means `(15+40)/2`. -/
theorem batch_avg_response_time_is_turn_mean_witness :
    ∃ r, get_batch_results c8db "job-1" false = some r ∧
      r.avg_response_time = 70 / 3 := by
  rcases hr : get_batch_results c8db "job-1" false with _ | r
  · exact absurd (congrArg Option.isSome hr) (by decide)
  · have h := batch_avg_response_time_is_turn_mean c8db "job-1" false r hr
    refine ⟨r, rfl, ?_⟩
    rw [h]
    norm_num [allTurnsOfJob, turnsOfTest, c8db]

/-! ### Engine invariants, towards claims C1, C2 and C3 -/

/-- `update_job_status` on a singleton matching `jobs` table rewrites the one
row and touches nothing else. -/
theorem update_job_status_singleton (db : DB) (j : JobRow) (job_id status : String)
    (u : JobUpdate) (hjobs : db.jobs = [j]) (hid : j.id = job_id) :
    (update_job_status db job_id status u).jobs = [applyJobUpdate j status u] := by
  unfold update_job_status
  simp [hjobs, replaceFirst, hid]

/-- `update_job_status` leaves the other tables untouched. -/
theorem update_job_status_frame (db : DB) (job_id status : String) (u : JobUpdate) :
    (update_job_status db job_id status u).test_results = db.test_results ∧
    (update_job_status db job_id status u).turn_results = db.turn_results ∧
    (update_job_status db job_id status u).validation_results = db.validation_results :=
  ⟨rfl, rfl, rfl⟩

/-- A `running` update rewrites the counts exactly as its keyword arguments
say and preserves the rest of the shape. -/
theorem jobShape_update (db : DB) (job_id : String) (total c f : Nat) (u : JobUpdate)
    (h : JobShape db job_id total c f) :
    JobShape (update_job_status db job_id "running" u) job_id total
      (u.completed_tests.getD c) (u.failed_tests.getD f) := by
  obtain ⟨j, hjobs, hid, hst, htot, hcc, hff⟩ := h
  refine ⟨applyJobUpdate j "running" u,
    update_job_status_singleton db j job_id "running" u hjobs hid, ?_, rfl, ?_, ?_, ?_⟩
  · show j.id = job_id
    exact hid
  · show j.total_tests = total
    exact htot
  · show u.completed_tests.getD j.completed_tests = u.completed_tests.getD c
    rw [hcc]
  · show u.failed_tests.getD j.failed_tests = u.failed_tests.getD f
    rw [hff]

/-- `get_job` under `JobShape` returns the one row. -/
theorem get_job_shape (db : DB) (job_id : String) (total c f : Nat)
    (h : JobShape db job_id total c f) :
    ∃ j : JobRow, get_job db job_id = some j ∧ j.completed_tests = c ∧ j.failed_tests = f := by
  obtain ⟨j, hjobs, hid, -, -, hcc, hff⟩ := h
  exact ⟨j, by simp [get_job, hjobs, hid], hcc, hff⟩

/-- `JobShape` only looks at the `jobs` table. -/
theorem jobShape_of_jobs_eq (db db' : DB) (job_id : String) (total c f : Nat)
    (h : JobShape db job_id total c f) (heq : db'.jobs = db.jobs) :
    JobShape db' job_id total c f := by
  obtain ⟨j, hjobs, rest⟩ := h
  exact ⟨j, heq.trans hjobs, rest⟩

/-- `runValidation` writes only validation rows and turn-row counts. -/
theorem runValidation_frame (env : Env) (ti tu vi : Nat) (v : ValidationSpec) (resp : String)
    (sc : Option String) (tid : Nat) (db : DB) :
    ((runValidation env ti tu vi v resp sc tid db).1).jobs = db.jobs ∧
    ((runValidation env ti tu vi v resp sc tid db).1).test_results = db.test_results :=
  ⟨rfl, rfl⟩

/-- `runValidations` writes only validation rows and turn-row counts. -/
theorem runValidations_frame (env : Env) (ti tu : Nat) (resp : String) (sc : Option String)
    (tid : Nat) :
    ∀ (vs : List ValidationSpec) (vi : Nat) (db : DB),
      ((runValidations env ti tu resp sc tid vi vs db).1).jobs = db.jobs ∧
      ((runValidations env ti tu resp sc tid vi vs db).1).test_results = db.test_results := by
  intro vs
  induction vs with
  | nil => intro vi db; exact ⟨rfl, rfl⟩
  | cons v rest ih =>
    intro vi db
    have hstep :
        ((runValidations env ti tu resp sc tid vi (v :: rest) db).1)
          = ((runValidations env ti tu resp sc tid (vi + 1) rest
              ((runValidation env ti tu vi v resp sc tid db).1)).1) := rfl
    rw [hstep]
    constructor
    · rw [(ih (vi + 1) _).1]
      exact (runValidation_frame env ti tu vi v resp sc tid db).1
    · rw [(ih (vi + 1) _).2]
      exact (runValidation_frame env ti tu vi v resp sc tid db).2

/-- `runTurn` preserves the job's shape (only `current_turn` changes) and the
test rows. -/
theorem runTurn_shape (env : Env) (job_id : String) (ti tu test_row_id : Nat) (turn : TurnSpec)
    (db : DB) (total c f : Nat) (h : JobShape db job_id total c f) :
    JobShape ((runTurn env job_id ti tu test_row_id turn db).1) job_id total c f ∧
    ((runTurn env job_id ti tu test_row_id turn db).1).test_results = db.test_results := by
  have h1 : JobShape (update_job_status db job_id "running" { current_turn := some turn.order })
      job_id total c f := jobShape_update db job_id total c f _ h
  unfold runTurn
  rcases hsl : sendLoop (fun k => env.send ti tu k) ti tu with ⟨evs, res⟩
  cases res with
  | error e => exact ⟨h1, rfl⟩
  | ok resp =>
    constructor
    · refine jobShape_of_jobs_eq _ _ job_id total c f h1 ?_
      rw [(runValidations_frame env ti tu resp _ _ turn.validations 0 _).1]
      rfl
    · rw [(runValidations_frame env ti tu resp _ _ turn.validations 0 _).2]
      rfl

/-- A turn propagates an error exactly when its send retries are exhausted. -/
theorem runTurn_err (env : Env) (job_id : String) (ti tu test_row_id : Nat) (turn : TurnSpec)
    (db : DB) :
    exceptOk ((runTurn env job_id ti tu test_row_id turn db).2.2)
      = !sendExhausted env ti tu := by
  have hok := sendLoop_ok_iff env ti tu
  unfold runTurn
  rcases hsl : sendLoop (fun k => env.send ti tu k) ti tu with ⟨evs, res⟩
  rw [hsl] at hok
  cases res with
  | error e => simpa using hok
  | ok resp => simpa using hok

/-- The send retry loop emits no session-close event. -/
theorem sendLoopAux_no_sessionEnd (send : Nat → Except String String) (ti tu : Nat) :
    ∀ (fuel k : Nat), ∀ e ∈ (sendLoopAux send ti tu k fuel).1, isSessionEndEv e = false := by
  intro fuel
  induction fuel with
  | zero => intro k e he; simp [sendLoopAux] at he
  | succ fuel ih =>
    intro k e he
    rcases hk : send k with err | r
    · by_cases hf : fuel = 0
      · simp [sendLoopAux, hk, hf] at he
        rw [he]; rfl
      · simp [sendLoopAux, hk, hf] at he
        rcases he with he | he | he
        · rw [he]; rfl
        · rw [he]; rfl
        · exact ih (k + 1) e he
    · simp [sendLoopAux, hk] at he
      rw [he]; rfl

/-- The validation retry loop emits no session-close event. -/
theorem valLoopAux_no_sessionEnd (validate : Nat → Except String VDict) (ti tu vi : Nat) :
    ∀ (fuel k : Nat), ∀ e ∈ (valLoopAux validate ti tu vi k fuel).1, isSessionEndEv e = false := by
  intro fuel
  induction fuel with
  | zero => intro k e he; simp [valLoopAux] at he
  | succ fuel ih =>
    intro k e he
    rcases hk : validate k with err | r
    · by_cases hf : fuel = 0
      · simp [valLoopAux, hk, hf] at he
        rw [he]; rfl
      · simp [valLoopAux, hk, hf] at he
        rcases he with he | he | he
        · rw [he]; rfl
        · rw [he]; rfl
        · exact ih (k + 1) e he
    · simp [valLoopAux, hk] at he
      rw [he]; rfl

/-- The validation loop of a turn emits no session-close event. -/
theorem runValidations_no_sessionEnd (env : Env) (ti tu : Nat) (resp : String)
    (sc : Option String) (tid : Nat) :
    ∀ (vs : List ValidationSpec) (vi : Nat) (db : DB),
      ∀ e ∈ (runValidations env ti tu resp sc tid vi vs db).2, isSessionEndEv e = false := by
  intro vs
  induction vs with
  | nil => intro vi db e he; simp [runValidations] at he
  | cons v rest ih =>
    intro vi db e he
    have hsplit : (runValidations env ti tu resp sc tid vi (v :: rest) db).2
        = (runValidation env ti tu vi v resp sc tid db).2
          ++ (runValidations env ti tu resp sc tid (vi + 1) rest
              ((runValidation env ti tu vi v resp sc tid db).1)).2 := rfl
    rw [hsplit] at he
    rcases List.mem_append.mp he with he | he
    · have hv : (runValidation env ti tu vi v resp sc tid db).2
          = (valLoop (fun k => env.validate ti tu vi
              (update_validation_params v.validation_type v.validation_parameters sc) k) ti tu vi).1 := rfl
      rw [hv] at he
      exact valLoopAux_no_sessionEnd _ ti tu vi maxRetries 0 e he
    · exact ih (vi + 1) _ e he

/-- A turn emits no session-close event. -/
theorem runTurn_no_sessionEnd (env : Env) (job_id : String) (ti tu test_row_id : Nat)
    (turn : TurnSpec) (db : DB) :
    ∀ e ∈ (runTurn env job_id ti tu test_row_id turn db).2.1, isSessionEndEv e = false := by
  intro e he
  unfold runTurn at he
  rcases hsl : sendLoop (fun k => env.send ti tu k) ti tu with ⟨evs, res⟩
  rw [hsl] at he
  have hevs : ∀ e' ∈ evs, isSessionEndEv e' = false := by
    intro e' he'
    have : e' ∈ (sendLoop (fun k => env.send ti tu k) ti tu).1 := by rw [hsl]; exact he'
    exact sendLoopAux_no_sessionEnd _ ti tu maxRetries 0 e' this
  cases res with
  | error err => exact hevs e he
  | ok resp =>
    simp only [List.mem_append] at he
    rcases he with (he | he) | he
    · exact hevs e he
    · by_cases hurls : (extract_urls resp).isEmpty <;> simp [hurls] at he
      rw [he]; rfl
    · exact runValidations_no_sessionEnd env ti tu resp _ _ turn.validations 0 _ e he

/-- The turn loop of a test emits no session-close event. -/
theorem runTurns_no_sessionEnd (env : Env) (job_id : String) (ti test_row_id : Nat) :
    ∀ (turns : List TurnSpec) (tu : Nat) (db : DB),
      ∀ e ∈ (runTurns env job_id ti test_row_id tu turns db).2.1, isSessionEndEv e = false := by
  intro turns
  induction turns with
  | nil => intro tu db e he; simp [runTurns] at he
  | cons turn rest ih =>
    intro tu db e he
    unfold runTurns at he
    rcases hr : runTurn env job_id ti tu test_row_id turn db with ⟨db', evs, res⟩
    rw [hr] at he
    have hevs : ∀ e' ∈ evs, isSessionEndEv e' = false := by
      intro e' he'
      have : e' ∈ (runTurn env job_id ti tu test_row_id turn db).2.1 := by rw [hr]; exact he'
      exact runTurn_no_sessionEnd env job_id ti tu test_row_id turn db e' this
    cases res with
    | error err => exact hevs e he
    | ok rt =>
      simp only [List.mem_append] at he
      rcases he with he | he
      · exact hevs e he
      · exact ih (tu + 1) db' e he

/-- `runTurns` preserves the job's shape and the test rows. -/
theorem runTurns_shape (env : Env) (job_id : String) (ti test_row_id : Nat) :
    ∀ (turns : List TurnSpec) (tu : Nat) (db : DB) (total c f : Nat),
      JobShape db job_id total c f →
      JobShape ((runTurns env job_id ti test_row_id tu turns db).1) job_id total c f ∧
      ((runTurns env job_id ti test_row_id tu turns db).1).test_results = db.test_results := by
  intro turns
  induction turns with
  | nil => intro tu db total c f h; exact ⟨h, rfl⟩
  | cons turn rest ih =>
    intro tu db total c f h
    have ht := runTurn_shape env job_id ti tu test_row_id turn db total c f h
    unfold runTurns
    rcases hr : runTurn env job_id ti tu test_row_id turn db with ⟨db', evs, res⟩
    rw [hr] at ht
    cases res with
    | error e => exact ⟨ht.1, ht.2⟩
    | ok rt =>
      have ih' := ih (tu + 1) db' total c f ht.1
      exact ⟨ih'.1, ih'.2.trans ht.2⟩

/-- The turn loop aborts with an error exactly when some turn of the list
exhausts its send retries. -/
theorem runTurns_err (env : Env) (job_id : String) (ti test_row_id : Nat) :
    ∀ (turns : List TurnSpec) (tu : Nat) (db : DB),
      ((runTurns env job_id ti test_row_id tu turns db).2.2.2).isSome
        = ((List.range turns.length).any fun i => sendExhausted env ti (tu + i)) := by
  intro turns
  induction turns with
  | nil => intro tu db; simp [runTurns]
  | cons turn rest ih =>
    intro tu db
    have herr := runTurn_err env job_id ti tu test_row_id turn db
    unfold runTurns
    rcases hr : runTurn env job_id ti tu test_row_id turn db with ⟨db', evs, res⟩
    rw [hr] at herr
    cases res with
    | error e =>
      have hex : sendExhausted env ti tu = true := by
        cases hx : sendExhausted env ti tu
        · rw [hx] at herr
          simp [exceptOk] at herr
        · rfl
      simp [List.range_succ_eq_map, hex]
    | ok rt =>
      have hex : sendExhausted env ti tu = false := by
        cases hx : sendExhausted env ti tu
        · rfl
        · rw [hx] at herr
          simp [exceptOk] at herr
      show ((runTurns env job_id ti test_row_id (tu + 1) rest db').2.2.2).isSome = _
      rw [ih (tu + 1) db']
      simp only [List.length_cons, List.range_succ_eq_map, List.any_cons, Nat.add_zero, hex,
        Bool.false_or, List.any_map]
      refine congrArg (List.any (List.range rest.length)) ?_
      funext i
      show sendExhausted env ti (tu + 1 + i) = sendExhausted env ti (tu + (i + 1))
      rw [show tu + 1 + i = tu + (i + 1) by omega]

/-- Ok and failed test counts add up to the batch size. -/
theorem okCountFrom_add_failCountFrom (env : Env) :
    ∀ (tests : List TestSpec) (ti : Nat),
      okCountFrom env ti tests + failCountFrom env ti tests = tests.length := by
  intro tests
  induction tests with
  | nil => intro ti; rfl
  | cons test rest ih =>
    intro ti
    simp only [okCountFrom, failCountFrom, List.length_cons]
    have hsum := ih (ti + 1)
    by_cases h : testFails env ti test <;> simp [h] <;> omega

/-- `replaceFirst` skips an unmatched block. -/
theorem replaceFirst_append_of_none {α : Type} (p : α → Bool) (f : α → α) :
    ∀ (A B : List α), (∀ a ∈ A, p a = false) →
      replaceFirst p f (A ++ B) = A ++ replaceFirst p f B := by
  intro A B hA
  induction A with
  | nil => rfl
  | cons a rest ih =>
    have ha : p a = false := hA a (by simp)
    simp only [List.cons_append, replaceFirst, ha]
    simp only [Bool.false_eq_true, if_false, List.cons.injEq, true_and]
    exact ih fun x hx => hA x (by simp [hx])

/-- `update_test_result` on the freshly appended row (whose id exceeds every
earlier id) rewrites exactly that row. -/
theorem update_test_result_append (db : DB) (A : List TestRow) (row : TestRow) (status : String)
    (u : TestUpdate) (htr : db.test_results = A ++ [row]) (hid : row.id = A.length + 1)
    (hA : ∀ a ∈ A, a.id ≤ A.length) :
    (update_test_result db row.id status u).test_results
      = A ++ [applyTestUpdate row status u] := by
  unfold update_test_result
  show replaceFirst (fun t => t.id == row.id) (fun t => applyTestUpdate t status u) db.test_results
      = A ++ [applyTestUpdate row status u]
  rw [htr]
  rw [replaceFirst_append_of_none _ _ A [row] ?hnone]
  case hnone =>
    intro a ha
    refine beq_eq_false_iff_ne.mpr ?_
    have := hA a ha
    omega
  simp [replaceFirst]

/-- The failure path of a test (the `except` branch of the per-test `try`):
mark the `TestResult` failed with the error, then bump the job's
`failed_tests`. -/
theorem failPath_spec (db' : DB) (e : String) (job_id : String) (total c f : Nat)
    (h : JobShape db' job_id total c f)
    (A : List TestRow) (row : TestRow) (htr : db'.test_results = A ++ [row])
    (hid : row.id = A.length + 1) (hA : ∀ a ∈ A, a.id ≤ A.length) :
    JobShape (update_job_status (update_test_result db' row.id "failed" { error := some e })
        job_id "running"
        { failed_tests := some ((((get_job (update_test_result db' row.id "failed"
            { error := some e }) job_id).map fun j => j.failed_tests).getD 0) + 1) })
      job_id total c (f + 1) ∧
    (update_job_status (update_test_result db' row.id "failed" { error := some e })
        job_id "running"
        { failed_tests := some ((((get_job (update_test_result db' row.id "failed"
            { error := some e }) job_id).map fun j => j.failed_tests).getD 0) + 1) }).test_results
      = A ++ [applyTestUpdate row "failed" { error := some e }] := by
  have h1 : JobShape (update_test_result db' row.id "failed" { error := some e })
      job_id total c f :=
    jobShape_of_jobs_eq _ _ job_id total c f h rfl
  obtain ⟨j, hj, hjc, hjf⟩ := get_job_shape _ job_id total c f h1
  have hfailed : (((get_job (update_test_result db' row.id "failed" { error := some e })
      job_id).map fun j => j.failed_tests).getD 0) = f := by
    rw [hj]
    simp [hjf]
  rw [hfailed]
  constructor
  · exact jobShape_update _ job_id total c f _ h1
  · have hfr : (update_job_status (update_test_result db' row.id "failed" { error := some e })
        job_id "running" { failed_tests := some (f + 1) }).test_results
        = (update_test_result db' row.id "failed" { error := some e }).test_results := rfl
    rw [hfr]
    exact update_test_result_append db' A row "failed" { error := some e } htr hid hA

/-- The success path of a test: close the session, mark the `TestResult`
completed with the average response time, then bump the job's
`completed_tests`. -/
theorem successPath_spec (db' : DB) (avg : ℚ) (job_id : String) (total c f : Nat)
    (h : JobShape db' job_id total c f)
    (A : List TestRow) (row : TestRow) (htr : db'.test_results = A ++ [row])
    (hid : row.id = A.length + 1) (hA : ∀ a ∈ A, a.id ≤ A.length) :
    JobShape (update_job_status (update_test_result db' row.id "completed"
        { avg_response_time := some avg }) job_id "running"
        { completed_tests := some ((((get_job (update_test_result db' row.id "completed"
            { avg_response_time := some avg }) job_id).map fun j => j.completed_tests).getD 0) + 1) })
      job_id total (c + 1) f ∧
    (update_job_status (update_test_result db' row.id "completed"
        { avg_response_time := some avg }) job_id "running"
        { completed_tests := some ((((get_job (update_test_result db' row.id "completed"
            { avg_response_time := some avg }) job_id).map fun j => j.completed_tests).getD 0) + 1) }).test_results
      = A ++ [applyTestUpdate row "completed" { avg_response_time := some avg }] := by
  have h1 : JobShape (update_test_result db' row.id "completed" { avg_response_time := some avg })
      job_id total c f :=
    jobShape_of_jobs_eq _ _ job_id total c f h rfl
  obtain ⟨j, hj, hjc, hjf⟩ := get_job_shape _ job_id total c f h1
  have hcompleted : (((get_job (update_test_result db' row.id "completed"
      { avg_response_time := some avg }) job_id).map fun j => j.completed_tests).getD 0) = c := by
    rw [hj]
    simp [hjc]
  rw [hcompleted]
  constructor
  · exact jobShape_update _ job_id total c f _ h1
  · have hfr : (update_job_status (update_test_result db' row.id "completed"
        { avg_response_time := some avg }) job_id "running"
        { completed_tests := some (c + 1) }).test_results
        = (update_test_result db' row.id "completed"
            { avg_response_time := some avg }).test_results := rfl
    rw [hfr]
    exact update_test_result_append db' A row "completed" { avg_response_time := some avg } htr hid hA

/-- Appending a row with the next id preserves the id bound. -/
theorem ids_append (A : List TestRow) (row : TestRow) (hA : ∀ a ∈ A, a.id ≤ A.length)
    (hrow : row.id = A.length + 1) :
    ∀ r ∈ A ++ [row], r.id ≤ (A ++ [row]).length := by
  intro r hr
  rcases List.mem_append.mp hr with hr | hr
  · have := hA r hr
    simp only [List.length_append, List.length_cons, List.length_nil]
    omega
  · have : r = row := by simpa using hr
    subst this
    simp only [List.length_append, List.length_cons, List.length_nil]
    omega

/-- One test of the batch, summarized: the job keeps its shape except that
exactly one count is bumped according to whether the test's scope raised;
exactly one `TestResult` row is appended, whose final status records the same
outcome; row ids stay bounded; and the session-close event appears in the
test's trace exactly when the test succeeded. -/
theorem runTest_spec (env : Env) (job_id : String) (ti : Nat) (test : TestSpec) (db : DB)
    (total c f : Nat) (h : JobShape db job_id total c f)
    (hids : ∀ r ∈ db.test_results, r.id ≤ db.test_results.length) :
    JobShape ((runTest env job_id ti test db).1) job_id total
      (c + (if testFails env ti test then 0 else 1))
      (f + (if testFails env ti test then 1 else 0)) ∧
    (∃ row : TestRow, ((runTest env job_id ti test db).1).test_results = db.test_results ++ [row] ∧
      row.job_id = job_id ∧ row.test_id = test.test_id ∧
      row.status = (if testFails env ti test then "failed" else "completed")) ∧
    (∀ r ∈ ((runTest env job_id ti test db).1).test_results,
      r.id ≤ ((runTest env job_id ti test db).1).test_results.length) ∧
    ((Event.sessionEnd ti ∈ (runTest env job_id ti test db).2) ↔ testFails env ti test = false) := by
  have h0 : JobShape (update_job_status db job_id "running"
      { current_test_id := some test.test_id, current_turn := some 0 }) job_id total c f :=
    jobShape_update db job_id total c f _ h
  simp only [runTest]
  set db0 := update_job_status db job_id "running"
      { current_test_id := some test.test_id, current_turn := some 0 } with hdb0
  set db1 := (create_test_result db0 job_id test.test_id).1 with hdb1
  set rid := (create_test_result db0 job_id test.test_id).2 with hriddef
  have h1 : JobShape db1 job_id total c f := jobShape_of_jobs_eq _ _ job_id total c f h0 rfl
  have htr1 : db1.test_results = db.test_results ++ [(newTestRow (db.test_results.length + 1) job_id test.test_id)] := rfl
  have hrowid : (newTestRow (db.test_results.length + 1) job_id test.test_id).id = db.test_results.length + 1 := rfl
  have hrid_eq : rid = (newTestRow (db.test_results.length + 1) job_id test.test_id).id := rfl
  rcases hstart : env.startSession ti with e | sid
  · -- session start fails: the per-test scope raises before any turn
    have htf : testFails env ti test = true := by
      simp [testFails, hstart, exceptOk]
    obtain ⟨hshape, htr⟩ := failPath_spec db1 e job_id total c f h1
      db.test_results (newTestRow (db.test_results.length + 1) job_id test.test_id) htr1 hrowid hids
    have hids' : ∀ r ∈ db.test_results ++ [applyTestUpdate (newTestRow (db.test_results.length + 1) job_id test.test_id) "failed" { error := some e }],
        r.id ≤ (db.test_results ++ [applyTestUpdate (newTestRow (db.test_results.length + 1) job_id test.test_id) "failed" { error := some e }]).length :=
      ids_append db.test_results _ hids hrowid
    rw [← htr] at hids'
    refine ⟨?_, ?_, ?_, ?_⟩
    · simpa [htf] using hshape
    · refine ⟨applyTestUpdate (newTestRow (db.test_results.length + 1) job_id test.test_id) "failed" { error := some e }, ?_, rfl, rfl, ?_⟩
      · exact htr
      · simp [htf]
        rfl
    · exact hids'
    · rw [htf]
      simp
  · -- session opened; run the turn loop
    have hshape2 := runTurns_shape env job_id ti rid test.turns 0 db1 total c f h1
    have herr := runTurns_err env job_id ti rid test.turns 0 db1
    have hno := runTurns_no_sessionEnd env job_id ti rid test.turns 0 db1
    rcases hrt : runTurns env job_id ti rid 0 test.turns db1 with ⟨db2, tevs, rts, err⟩
    rw [hrt] at hshape2 herr hno
    have htf : testFails env ti test
        = ((List.range test.turns.length).any fun tu => sendExhausted env ti tu) := by
      simp [testFails, hstart, exceptOk]
    simp only [Nat.zero_add] at herr
    cases err with
    | some e =>
      have htf_true : testFails env ti test = true := by
        rw [htf, ← herr]
        rfl
      obtain ⟨hshape, htr⟩ := failPath_spec db2 e job_id total c f hshape2.1
        db.test_results (newTestRow (db.test_results.length + 1) job_id test.test_id) (hshape2.2.trans htr1) hrowid hids
      have hids' : ∀ r ∈ db.test_results ++ [applyTestUpdate (newTestRow (db.test_results.length + 1) job_id test.test_id) "failed" { error := some e }],
          r.id ≤ (db.test_results ++ [applyTestUpdate (newTestRow (db.test_results.length + 1) job_id test.test_id) "failed" { error := some e }]).length :=
        ids_append db.test_results _ hids hrowid
      rw [← htr] at hids'
      refine ⟨?_, ?_, ?_, ?_⟩
      · simpa [htf_true] using hshape
      · refine ⟨applyTestUpdate (newTestRow (db.test_results.length + 1) job_id test.test_id) "failed" { error := some e }, htr, rfl, rfl, ?_⟩
        simp [htf_true]
        rfl
      · exact hids'
      · rw [htf_true]
        constructor
        · intro hmem
          exfalso
          rcases List.mem_cons.mp hmem with h' | h'
          · simp at h'
          · have := hno _ h'
            simp [isSessionEndEv] at this
        · intro h'
          simp at h'
    | none =>
      have htf_false : testFails env ti test = false := by
        rw [htf, ← herr]
        rfl
      obtain ⟨hshape, htr⟩ := successPath_spec db2
        (if rts.length > 0 then ((rts.sum : ℕ) : ℚ) / ((rts.length : ℕ) : ℚ) else 0)
        job_id total c f hshape2.1 db.test_results (newTestRow (db.test_results.length + 1) job_id test.test_id) (hshape2.2.trans htr1) hrowid hids
      have hids' : ∀ r ∈ db.test_results ++ [applyTestUpdate (newTestRow (db.test_results.length + 1) job_id test.test_id) "completed"
            { avg_response_time := some (if rts.length > 0 then ((rts.sum : ℕ) : ℚ) / ((rts.length : ℕ) : ℚ) else 0) }],
          r.id ≤ (db.test_results ++ [applyTestUpdate (newTestRow (db.test_results.length + 1) job_id test.test_id) "completed"
            { avg_response_time := some (if rts.length > 0 then ((rts.sum : ℕ) : ℚ) / ((rts.length : ℕ) : ℚ) else 0) }]).length :=
        ids_append db.test_results _ hids hrowid
      rw [← htr] at hids'
      refine ⟨?_, ?_, ?_, ?_⟩
      · simpa [htf_false] using hshape
      · refine ⟨applyTestUpdate (newTestRow (db.test_results.length + 1) job_id test.test_id) "completed" _, htr, rfl, rfl, ?_⟩
        simp [htf_false]
        rfl
      · exact hids'
      · rw [htf_false]
        simp

/-- The test loop of a batch, summarized: counts accumulate one increment per
test according to each test's outcome, and one status row is appended per
test. -/
theorem runTests_spec (env : Env) (job_id : String) :
    ∀ (tests : List TestSpec) (ti : Nat) (db : DB) (total c f : Nat),
      JobShape db job_id total c f →
      (∀ r ∈ db.test_results, r.id ≤ db.test_results.length) →
      JobShape ((runTests env job_id ti tests db).1) job_id total
        (c + okCountFrom env ti tests) (f + failCountFrom env ti tests) ∧
      ((runTests env job_id ti tests db).1).test_results.map (fun r => r.status)
        = db.test_results.map (fun r => r.status) ++ expectedStatuses env ti tests ∧
      (∀ r ∈ ((runTests env job_id ti tests db).1).test_results,
        r.id ≤ ((runTests env job_id ti tests db).1).test_results.length) := by
  intro tests
  induction tests with
  | nil =>
    intro ti db total c f h hids
    exact ⟨by simpa using h, by simp [runTests, expectedStatuses], hids⟩
  | cons test rest ih =>
    intro ti db total c f h hids
    have hstep := runTest_spec env job_id ti test db total c f h hids
    unfold runTests
    rcases hr : runTest env job_id ti test db with ⟨db', evs⟩
    rw [hr] at hstep
    obtain ⟨hshape', ⟨row, htr, hrow_job, hrow_test, hrow_status⟩, hids', hsess⟩ := hstep
    have ihr := ih (ti + 1) db' total (c + (if testFails env ti test then 0 else 1))
      (f + (if testFails env ti test then 1 else 0)) hshape' hids'
    refine ⟨?_, ?_, ihr.2.2⟩
    · simp only [okCountFrom, failCountFrom]
      rw [show c + ((if testFails env ti test then 0 else 1) + okCountFrom env (ti + 1) rest)
            = (c + (if testFails env ti test then 0 else 1)) + okCountFrom env (ti + 1) rest
          by omega,
        show f + ((if testFails env ti test then 1 else 0) + failCountFrom env (ti + 1) rest)
            = (f + (if testFails env ti test then 1 else 0)) + failCountFrom env (ti + 1) rest
          by omega]
      exact ihr.1
    · rw [ihr.2.1, htr, List.map_append]
      simp [expectedStatuses, hrow_status]

/-- `execute_batch`, summarized: the job ends `completed` with
`completed_tests` and `failed_tests` counting the tests whose scope did or
did not raise, and the `TestResult` rows carry exactly the per-test
outcomes. -/
theorem execute_batch_char (env : Env) (job_id batch_id : String) (tests : List TestSpec) :
    ∃ j : JobRow, get_job ((execute_batch env job_id batch_id tests).1) job_id = some j ∧
      j.status = "completed" ∧ j.total_tests = tests.length ∧
      j.completed_tests = okCountFrom env 0 tests ∧
      j.failed_tests = failCountFrom env 0 tests ∧
      ((execute_batch env job_id batch_id tests).1).test_results.map (fun r => r.status)
        = expectedStatuses env 0 tests := by
  simp only [execute_batch]
  set dbA := create_job emptyDB job_id batch_id tests.length with hdbA
  set dbB := update_job_status dbA job_id "running" {} with hdbB
  have hB : JobShape dbB job_id tests.length 0 0 :=
    ⟨applyJobUpdate (newJobRow job_id batch_id tests.length) "running" {},
      update_job_status_singleton dbA (newJobRow job_id batch_id tests.length) job_id
        "running" {} rfl rfl, rfl, rfl, rfl, rfl, rfl⟩
  have hrun := runTests_spec env job_id tests 0 dbB tests.length 0 0 hB
    (by intro r hr; simp [hdbB, hdbA, create_job, emptyDB, update_job_status, replaceFirst] at hr)
  rcases hrr : runTests env job_id 0 tests dbB with ⟨dbC, evs⟩
  rw [hrr] at hrun
  obtain ⟨⟨j, hjobs, hjid, hjst, hjtot, hjc, hjf⟩, hstat, -⟩ := hrun
  have hsing : (update_job_status dbC job_id "completed" {}).jobs
      = [applyJobUpdate j "completed" {}] :=
    update_job_status_singleton dbC j job_id "completed" {} hjobs hjid
  refine ⟨applyJobUpdate j "completed" {}, ?_, rfl, ?_, ?_, ?_, ?_⟩
  · show ((update_job_status dbC job_id "completed" {}).jobs.find? fun jr => jr.id == job_id)
      = some (applyJobUpdate j "completed" {})
    rw [hsing]
    have hid' : (applyJobUpdate j "completed" {} : JobRow).id = job_id := hjid
    simp [hid']
  · show j.total_tests = tests.length
    exact hjtot
  · show j.completed_tests = okCountFrom env 0 tests
    rw [hjc]
    omega
  · show j.failed_tests = failCountFrom env 0 tests
    rw [hjf]
    omega
  · show (update_job_status dbC job_id "completed" {}).test_results.map (fun r => r.status)
      = expectedStatuses env 0 tests
    have hfr : (update_job_status dbC job_id "completed" {}).test_results
        = dbC.test_results := rfl
    rw [hfr, hstat]
    simp [hdbB, hdbA, create_job, emptyDB, update_job_status, replaceFirst]

/-! ### Claim C1 -/

/-- Claim C1: an uncaught error inside one test's scope fails only that
`TestResult` — `failed_tests` is the number of failing tests,
`completed_tests` the rest — and after all tests the job ends with status
`completed`, never `failed` (first conjunct, for every environment and
batch).  In particular a batch of 3 tests whose second test exhausts its
send retries during the turn loop ends with `status = completed`,
`completed_tests = 2`, `failed_tests = 1`, and only the second
`TestResult` is `failed` (second conjunct). -/
theorem execute_batch_isolates_failures :
    (∀ (env : Env) (job_id batch_id : String) (tests : List TestSpec),
      ∃ j : JobRow, get_job ((execute_batch env job_id batch_id tests).1) job_id = some j ∧
        j.status = "completed" ∧ j.total_tests = tests.length ∧
        j.completed_tests = tests.length - failCountFrom env 0 tests ∧
        j.failed_tests = failCountFrom env 0 tests ∧
        ((execute_batch env job_id batch_id tests).1).test_results.map (fun r => r.status)
          = expectedStatuses env 0 tests) ∧
    (∃ j : JobRow, get_job ((execute_batch c1env "job-1" "batch-1" c1tests).1) "job-1" = some j ∧
      j.status = "completed" ∧ j.total_tests = 3 ∧ j.completed_tests = 2 ∧ j.failed_tests = 1 ∧
      ((execute_batch c1env "job-1" "batch-1" c1tests).1).test_results.map (fun r => r.status)
        = ["completed", "failed", "completed"]) := by
  constructor
  · intro env job_id batch_id tests
    obtain ⟨j, h1, h2, h3, h4, h5, h6⟩ := execute_batch_char env job_id batch_id tests
    have hsum := okCountFrom_add_failCountFrom env tests 0
    exact ⟨j, h1, h2, h3, by omega, h5, h6⟩
  · obtain ⟨j, h1, h2, h3, h4, h5, h6⟩ := execute_batch_char c1env "job-1" "batch-1" c1tests
    refine ⟨j, h1, h2, ?_, ?_, ?_, ?_⟩
    · rw [h3]
      rfl
    · rw [h4]
      decide
    · rw [h5]
      decide
    · rw [h6]
      decide

/-! ### Claim C2 -/

/-- Counterexample to claim C2 as stated: in a run whose single test opens
its session (the `sessionStart` event with `ok = true` is in the trace) and
then fails in its turn loop (its `TestResult` ends `failed`), `end_session`
is never invoked — no `sessionEnd` event is in the trace, because the source
reaches `end_session` (execution.py line 189) only at the end of the `try`
block, after the turn loop, with no `finally`. -/
theorem session_close_skipped_on_failure :
    ((execute_batch c2env "job-1" "batch-1" c2tests).1).test_results.map (fun r => r.status)
      = ["failed"] ∧
    Event.sessionStart 0 true ∈ (execute_batch c2env "job-1" "batch-1" c2tests).2 ∧
    Event.sessionEnd 0 ∉ (execute_batch c2env "job-1" "batch-1" c2tests).2 := by
  refine ⟨?_, ?_, ?_⟩ <;> decide

/-- Claim C2 (amended): the session is closed after the turn loop only on the
success path of a test — the engine's per-test trace contains the session
close exactly when the test's scope did not raise (first conjunct).  When
`end_session` is invoked, it is best-effort: its result does not depend on
the remote DELETE's outcome (no error propagates), and the local session
record is removed in every case (second conjunct). -/
theorem session_end_iff_success :
    (∀ (env : Env) (job_id : String) (ti : Nat) (test : TestSpec) (db : DB),
      Event.sessionEnd ti ∈ (runTest env job_id ti test db).2 ↔ testFails env ti test = false) ∧
    (∀ (sessions : List (String × SessionInfo)) (session_id : String) (r1 r2 : Except String Unit),
      end_session sessions session_id r1 = end_session sessions session_id r2 ∧
      (end_session sessions session_id r1).find? (fun s => s.1 == session_id) = none) := by
  constructor
  · intro env job_id ti test db
    simp only [runTest]
    set db0 := update_job_status db job_id "running"
        { current_test_id := some test.test_id, current_turn := some 0 } with hdb0
    set db1 := (create_test_result db0 job_id test.test_id).1 with hdb1
    set rid := (create_test_result db0 job_id test.test_id).2 with hriddef
    rcases hstart : env.startSession ti with e | sid
    · have htf : testFails env ti test = true := by
        simp [testFails, hstart, exceptOk]
      rw [htf]
      simp
    · have herr := runTurns_err env job_id ti rid test.turns 0 db1
      have hno := runTurns_no_sessionEnd env job_id ti rid test.turns 0 db1
      rcases hrt : runTurns env job_id ti rid 0 test.turns db1 with ⟨db2, tevs, rts, err⟩
      rw [hrt] at herr hno
      have htf : testFails env ti test
          = ((List.range test.turns.length).any fun tu => sendExhausted env ti tu) := by
        simp [testFails, hstart, exceptOk]
      simp only [Nat.zero_add] at herr
      cases err with
      | some e =>
        have htf_true : testFails env ti test = true := by
          rw [htf, ← herr]
          rfl
        rw [htf_true]
        constructor
        · intro hmem
          exfalso
          rcases List.mem_cons.mp hmem with h' | h'
          · simp at h'
          · have := hno _ h'
            simp [isSessionEndEv] at this
        · intro h'
          simp at h'
      | none =>
        have htf_false : testFails env ti test = false := by
          rw [htf, ← herr]
          rfl
        rw [htf_false]
        simp
  · intro sessions session_id r1 r2
    constructor
    · rfl
    · unfold end_session
      rcases hf : sessions.find? (fun s => s.1 == session_id) with - | s
      · rw [hf]
        exact hf
      · rw [hf]
        rw [List.find?_eq_none]
        intro x hx
        have hx' : x ∈ sessions.filter (fun s => !(s.1 == session_id)) := hx
        have hmem := List.mem_filter.mp hx'
        simpa using hmem.2

/-! ### Claim C3 -/

/-- Claim C3: a validation whose `validate` call raises on all 3 attempts
does not propagate the failure.  First conjunct: the retry loop returns the
synthetic failing dict — `passed = false`, `score = 0.0`, details citing the
retry count (`"Validation failed after 3 retries: …"`).  Second conjunct:
the engine persists exactly that as the `ValidationResult` row
(`is_passed = false`, `score = 0.0`, the dict as details).  Third conjunct:
validation outcomes never make a test fail — whenever the test's scope does
not raise (`testFails = false`, a predicate that does not inspect validation
outcomes at all), the test's row still ends `completed`. -/
theorem validation_retry_degrades :
    (∀ (validate : Nat → Except String VDict) (ti tu vi : Nat),
      (∀ k, k < 3 → exceptOk (validate k) = false) →
      (valLoop validate ti tu vi).2 = syntheticValidationFailure (exceptErr (validate 2)) ∧
      (valLoop validate ti tu vi).2.passed = false ∧
      (valLoop validate ti tu vi).2.score = some 0 ∧
      (valLoop validate ti tu vi).2.details
        = "Validation failed after 3 retries: " ++ exceptErr (validate 2)) ∧
    (∀ (env : Env) (ti tu vi : Nat) (v : ValidationSpec) (resp : String) (sc : Option String)
        (tid : Nat) (db : DB),
      (∀ k, k < 3 → exceptOk (env.validate ti tu vi
          (update_validation_params v.validation_type v.validation_parameters sc) k) = false) →
      ((runValidation env ti tu vi v resp sc tid db).1).validation_results
        = db.validation_results ++
          [{ id := db.validation_results.length + 1, turn_result_id := tid,
             validation_id := v.validation_id, validation_type := v.validation_type,
             is_passed := false, score := some 0,
             details := syntheticValidationFailure (exceptErr (env.validate ti tu vi
               (update_validation_params v.validation_type v.validation_parameters sc) 2)) }]) ∧
    (∀ (env : Env) (job_id : String) (ti : Nat) (test : TestSpec) (db : DB) (total c f : Nat),
      JobShape db job_id total c f →
      (∀ r ∈ db.test_results, r.id ≤ db.test_results.length) →
      testFails env ti test = false →
      ∃ row : TestRow, ((runTest env job_id ti test db).1).test_results
          = db.test_results ++ [row] ∧ row.status = "completed") := by
  refine ⟨?_, ?_, ?_⟩
  · intro validate ti tu vi hfail
    rcases hv0 : validate 0 with e0 | r0
    case ok =>
      have h0 := hfail 0 (by omega)
      rw [hv0] at h0
      simp [exceptOk] at h0
    rcases hv1 : validate 1 with e1 | r1
    case ok =>
      have h1 := hfail 1 (by omega)
      rw [hv1] at h1
      simp [exceptOk] at h1
    rcases hv2 : validate 2 with e2 | r2
    case ok =>
      have h2 := hfail 2 (by omega)
      rw [hv2] at h2
      simp [exceptOk] at h2
    have hvl := valLoop_exhausted validate ti tu vi e0 e1 e2 hv0 hv1 hv2
    rw [hvl]
    exact ⟨rfl, rfl, rfl, rfl⟩
  · intro env ti tu vi v resp sc tid db hfail
    rcases hv0 : env.validate ti tu vi
        (update_validation_params v.validation_type v.validation_parameters sc) 0 with e0 | r0
    case ok =>
      have h0 := hfail 0 (by omega)
      rw [hv0] at h0
      simp [exceptOk] at h0
    rcases hv1 : env.validate ti tu vi
        (update_validation_params v.validation_type v.validation_parameters sc) 1 with e1 | r1
    case ok =>
      have h1 := hfail 1 (by omega)
      rw [hv1] at h1
      simp [exceptOk] at h1
    rcases hv2 : env.validate ti tu vi
        (update_validation_params v.validation_type v.validation_parameters sc) 2 with e2 | r2
    case ok =>
      have h2 := hfail 2 (by omega)
      rw [hv2] at h2
      simp [exceptOk] at h2
    have hvl := valLoop_exhausted _ ti tu vi e0 e1 e2 hv0 hv1 hv2
    simp only [runValidation]
    rw [hvl]
    rfl
  · intro env job_id ti test db total c f h hids hfalse
    obtain ⟨-, ⟨row, htr, -, -, hstatus⟩, -, -⟩ :=
      runTest_spec env job_id ti test db total c f h hids
    rw [hfalse] at hstatus
    exact ⟨row, htr, by simpa using hstatus⟩

/-- Witness for C3: three failing attempts degrade to the synthetic failing
result citing the retry count, and a test whose only validation exhausts its
retries on every turn still ends `completed`. -/
theorem validation_retry_degrades_witness :
    (valLoop c3validate 0 0 0).2
      = { passed := false, score := some 0,
          details := "Validation failed after 3 retries: model timeout" } ∧
    ((runTest c3env "job-1" 0 c3test c3db).1).test_results.map (fun r => r.status)
      = ["completed"] := by
  constructor
  · have h := (validation_retry_degrades).1 c3validate 0 0 0 (by decide)
    rw [h.1]
    rfl
  · obtain ⟨row, htr, hst⟩ := (validation_retry_degrades).2.2 c3env "job-1" 0 c3test c3db 1 0 0
      ⟨applyJobUpdate (newJobRow "job-1" "batch-1" 1) "running" {},
        update_job_status_singleton _ _ _ _ _ rfl rfl, rfl, rfl, rfl, rfl, rfl⟩
      (by intro r hr; simp [c3db, update_job_status, create_job, emptyDB, replaceFirst] at hr)
      (by decide)
    have h0 : c3db.test_results = [] := rfl
    rw [htr, h0]
    simp [hst]

end AgentTesting

